import Mathlib

/-!
# Sketcher auto-constraints (`Mod/Sketcher/Gui/DrawSketchHandler.cpp`)

A shallow embedding of `DrawSketchHandler::seekAutoConstraint`,
`DrawSketchHandler::createAutoConstraints` and
`DrawSketchHandler::suggestedConstraintsPixmaps`; the navigation cube of
`Gui/NaviCube.cpp` follows in namespace `Gui`. All definitions come first, the
theorems after them.

Conventions of the embedding

* C++ `double` values are rationals and `+ - * /` and comparisons are exact;
  rounding of IEEE arithmetic is not modelled.
* Everything the two functions use that is declared outside the translated
  file (the C math library, `Base::fmod`, the `Sketcher` id constants) is a
  field of `Env`; the general theorems hold for every choice of them, and
  `refEnv` is the choice used to run the model on explicit inputs.
* The sketch object is seen through the four member functions the code calls.
* A null pointer dereference is the result `none`.
* Calls into the command system are recorded, in order, as a list of `Event`s.
-/

namespace SketcherGui

/-! ## Data model -/

/-- `Sketcher::ConstraintType`, the constraint kinds of the sketcher. -/
inductive ConstraintType
  | None
  | Coincident
  | Horizontal
  | Vertical
  | Parallel
  | Tangent
  | Distance
  | Perpendicular
  | Equal
  | PointOnObject
  | Symmetric
deriving DecidableEq

/-- `Sketcher::PointPos`: which point of a geometry is meant (`none`: the edge). -/
inductive PointPos
  | none
  | start
  | end_
  | mid
deriving DecidableEq

/-- `AutoConstraint::TargetType`. -/
inductive TargetType
  | VERTEX
  | CURVE
deriving DecidableEq

/-- `struct AutoConstraint`: a suggested constraint. -/
structure AutoConstraint where
  Type_ : ConstraintType
  GeoId : Int
  PosId : PointPos
deriving DecidableEq

/-- `Base::Vector2d`. -/
structure Vector2d where
  x : ℚ
  y : ℚ
deriving DecidableEq

/-- `Base::Vector3d`. -/
structure Vector3d where
  x : ℚ
  y : ℚ
  z : ℚ
deriving DecidableEq

/-- The `Part::Geometry` subclasses the handler tells apart by `getTypeId()`,
with the accessors it reads; `getRange(.., emulateCCW=true)` is the pair
`startAngle`, `endAngle`. -/
inductive Geometry
  | GeomPoint (point : Vector3d)
  | GeomLineSegment (startPoint endPoint : Vector3d)
  | GeomCircle (center : Vector3d) (radius : ℚ)
  | GeomEllipse (center : Vector3d) (majorRadius minorRadius : ℚ) (majorAxisDir : Vector3d)
  | GeomArcOfCircle (center : Vector3d) (radius startAngle endAngle : ℚ)
  | GeomArcOfEllipse (center : Vector3d) (majorRadius minorRadius : ℚ)
      (majorAxisDir : Vector3d) (startAngle endAngle : ℚ)
  | GeomBSplineCurve
deriving DecidableEq

/-- What the translated file takes from outside: `sqrt` and `atan2` of the C
math library, `Base::fmod`, and the id constants `Constraint::GeoUndef`,
`Sketcher::GeoEnum::RtPnt`, `HAxis`, `VAxis`. -/
structure Env where
  sqrt : ℚ → ℚ
  atan2 : ℚ → ℚ → ℚ
  fmod : ℚ → ℚ → ℚ
  GeoUndef : Int
  RtPnt : Int
  HAxis : Int
  VAxis : Int

/-- `Sketcher::SketchObject`, through the member functions the handler calls. -/
structure SketchObject where
  getGeoVertexIndex : Int → Int × PointPos
  getGeometry : Int → Option Geometry
  getCompleteGeometry : List Geometry
  getHighestCurveIndex : Int

/-- `ViewProviderSketch` (`sketchgui`): the property and getters the handler reads. -/
structure ViewProviderSketch where
  Autoconstraints : Bool
  getPreselectPoint : Int
  getPreselectCurve : Int
  getPreselectCross : Int
  getScaleFactor : ℚ
  getSketchObject : SketchObject

/-- `M_PI` of `math.h` as a double: 3.141592653589793 = 884279719003555 / 2^48. -/
def M_PI : ℚ := 884279719003555 / 281474976710656

/-- `M_PI_2` of `math.h` as a double: 1.5707963267948966 = 884279719003555 / 2^49. -/
def M_PI_2 : ℚ := 884279719003555 / 562949953421312

/-- `D_PI`, the value of pi FreeCAD defines for itself (the same double as `M_PI`). -/
def D_PI : ℚ := 884279719003555 / 281474976710656

/-! ## Vector helpers (`Base::Vector2d`, `Base::Vector3d`) -/

/-- `Vector2d::Length`. -/
def Vector2d.Length (E : Env) (v : Vector2d) : ℚ :=
  E.sqrt (v.x * v.x + v.y * v.y)

/-- `Vector3d::operator-`. -/
def Vector3d.sub (a b : Vector3d) : Vector3d :=
  ⟨a.x - b.x, a.y - b.y, a.z - b.z⟩

/-- `Vector3d::operator+`. -/
def Vector3d.add (a b : Vector3d) : Vector3d :=
  ⟨a.x + b.x, a.y + b.y, a.z + b.z⟩

/-- Scalar times vector. -/
def Vector3d.smul (k : ℚ) (a : Vector3d) : Vector3d :=
  ⟨k * a.x, k * a.y, k * a.z⟩

/-- `Vector3d::operator*` on two vectors: the dot product. -/
def Vector3d.dot (a b : Vector3d) : ℚ :=
  a.x * b.x + a.y * b.y + a.z * b.z

/-- `Vector3d::Sqr`. -/
def Vector3d.Sqr (a : Vector3d) : ℚ :=
  a.x * a.x + a.y * a.y + a.z * a.z

/-- `Vector3d::Length`. -/
def Vector3d.Length (E : Env) (a : Vector3d) : ℚ :=
  E.sqrt (a.x * a.x + a.y * a.y + a.z * a.z)

/-- `Vector3d::Normalize`: divides by the length unless it is 0 or 1. -/
def Vector3d.Normalize (E : Env) (a : Vector3d) : Vector3d :=
  let fLen := a.Length E
  if fLen ≠ 0 ∧ fLen ≠ 1 then ⟨a.x / fLen, a.y / fLen, a.z / fLen⟩ else a

/-- `Vector3d::ProjectToLine(rclPoint, rclLine)`: the vector from the point to
its foot on the line through the origin along `rclLine`. -/
def Vector3d.ProjectToLine (rclPoint rclLine : Vector3d) : Vector3d :=
  (Vector3d.smul (rclPoint.dot rclLine / rclLine.Sqr) rclLine).sub rclPoint

/-! ## `seekAutoConstraint` -/

/-- `std::vector::clear`. -/
def clear (_v : List AutoConstraint) : List AutoConstraint := []

/-- Lines 341-373: the preselected element as `(GeoId, PosId, hitShapeDir)`.
`none` when the preselected curve has no geometry (`geom->getTypeId()` on a
null pointer). -/
def getPreselection (E : Env) (sketchgui : ViewProviderSketch) :
    Option (Int × PointPos × Vector3d) :=
  let preSelPnt := sketchgui.getPreselectPoint
  let preSelCrv := sketchgui.getPreselectCurve
  let preSelCrs := sketchgui.getPreselectCross
  if preSelPnt ≠ -1 then
    let r := sketchgui.getSketchObject.getGeoVertexIndex preSelPnt
    some (r.1, r.2, ⟨0, 0, 0⟩)
  else if preSelCrv ≠ -1 then
    match sketchgui.getSketchObject.getGeometry preSelCrv with
    | Option.none => Option.none
    | some (Geometry.GeomLineSegment s e) => some (preSelCrv, PointPos.none, e.sub s)
    | some _ => some (preSelCrv, PointPos.none, ⟨0, 0, 0⟩)
  else if preSelCrs = 0 then some (E.RtPnt, PointPos.start, ⟨0, 0, 0⟩)
  else if preSelCrs = 1 then some (E.HAxis, PointPos.none, ⟨1, 0, 0⟩)
  else if preSelCrs = 2 then some (E.VAxis, PointPos.none, ⟨0, 1, 0⟩)
  else some (E.GeoUndef, PointPos.none, ⟨0, 0, 0⟩)

/-- Lines 377-391: the constraint `constr` derived from the preselected element.
`hitobject` is dereferenced only in the third test, after `type == VERTEX` and
`PosId == none` held; the result is `none` when it is null there. -/
def preselectionConstraint (sketchgui : ViewProviderSketch) (type : TargetType)
    (GeoId : Int) (PosId : PointPos) : Option AutoConstraint :=
  let hitobject := sketchgui.getSketchObject.getGeometry GeoId
  if type = TargetType.VERTEX ∧ PosId ≠ PointPos.none then
    some ⟨ConstraintType.Coincident, GeoId, PosId⟩
  else if type = TargetType.CURVE ∧ PosId ≠ PointPos.none then
    some ⟨ConstraintType.PointOnObject, GeoId, PosId⟩
  else
    let third : Option Bool :=
      if type = TargetType.VERTEX ∧ PosId = PointPos.none then
        hitobject.map (fun g => decide (g ≠ Geometry.GeomBSplineCurve))
      else some false
    match third with
    | Option.none => Option.none
    | some true => some ⟨ConstraintType.PointOnObject, GeoId, PosId⟩
    | some false =>
      if type = TargetType.CURVE ∧ PosId = PointPos.none then
        some ⟨ConstraintType.Tangent, GeoId, PosId⟩
      else some ⟨ConstraintType.None, GeoId, PosId⟩

/-- Line 395: `cosangle`, the dot product of the two normalised directions. -/
def cosangle (E : Env) (Dir : Vector2d) (hitShapeDir : Vector3d) : ℚ :=
  let dir3d : Vector3d := ⟨Dir.x, Dir.y, 0⟩
  (dir3d.Normalize E).dot (hitShapeDir.Normalize E)

/-- Lines 375-408: the preselection block. `Sum.inl l` is the `return` of line
403 with list `l`, `Sum.inr l` falls through to line 410 with list `l`. -/
def preselectionBlock (E : Env) (sketchgui : ViewProviderSketch)
    (suggestedConstraints : List AutoConstraint) (Dir : Vector2d) (type : TargetType)
    (GeoId : Int) (PosId : PointPos) (hitShapeDir : Vector3d) :
    Option (List AutoConstraint ⊕ List AutoConstraint) :=
  if GeoId ≠ E.GeoUndef then
    match preselectionConstraint sketchgui type GeoId PosId with
    | Option.none => Option.none
    | some constr =>
      if constr.Type_ = ConstraintType.Tangent ∧ Dir.Length E > 1e-8
          ∧ hitShapeDir.Length E > 1e-8 then
        let cosangle := cosangle E Dir hitShapeDir
        if |cosangle| < 0.995 ∨ ((GeoId = E.HAxis ∨ GeoId = E.VAxis) ∧ |cosangle| < 0.1) then
          some (Sum.inl (suggestedConstraints ++ [constr]))
        else some (Sum.inl suggestedConstraints)
      else if constr.Type_ ≠ ConstraintType.None then
        some (Sum.inr (suggestedConstraints ++ [constr]))
      else some (Sum.inr suggestedConstraints)
  else some (Sum.inr suggestedConstraints)

/-- Line 418: `angleDevRad`, two degrees in radians. -/
def angleDevRad : ℚ := 2 * M_PI / 180

/-- Lines 420-433: the horizontal / vertical suggestion. -/
def horizontalVerticalBlock (E : Env) (suggestedConstraints : List AutoConstraint)
    (Dir : Vector2d) : List AutoConstraint :=
  let angle := |E.atan2 Dir.y Dir.x|
  let constr : AutoConstraint :=
    if angle < angleDevRad ∨ (M_PI - angle) < angleDevRad then
      ⟨ConstraintType.Horizontal, E.GeoUndef, PointPos.none⟩
    else if |angle - M_PI_2| < angleDevRad then
      ⟨ConstraintType.Vertical, E.GeoUndef, PointPos.none⟩
    else ⟨ConstraintType.None, E.GeoUndef, PointPos.none⟩
  if constr.Type_ ≠ ConstraintType.None then suggestedConstraints ++ [constr]
  else suggestedConstraints

/-- The loop variables of the geometry search: the index `i`, the candidate
`tangId` and the threshold `tangDeviation`. -/
structure TangState where
  i : Int
  tangId : Int
  tangDeviation : ℚ
deriving DecidableEq

/-- Lines 522-523 and 567-568: `while (angle < startAngle) angle += 2*D_PI`. -/
def bringToRange (startAngle angle : ℚ) : ℚ :=
  if angle < startAngle then bringToRange startAngle (angle + 2 * D_PI) else angle
termination_by ⌈(startAngle - angle) / (2 * D_PI)⌉.toNat
decreasing_by
  have hpi : (0 : ℚ) < 2 * D_PI := by norm_num [D_PI]
  have hpos : 0 < (startAngle - angle) / (2 * D_PI) := div_pos (by linarith) hpi
  have hc : 0 < ⌈(startAngle - angle) / (2 * D_PI)⌉ := Int.ceil_pos.mpr hpos
  have he : (startAngle - (angle + 2 * D_PI)) / (2 * D_PI)
      = (startAngle - angle) / (2 * D_PI) - 1 := by
    field_simp
    ring
  rw [he, Int.ceil_sub_one]
  omega

/-- Lines 454-473 and 504-530: distance from `center` to the drawn line, less
the radius, in absolute value (`projDist`), with the foot vector `projPnt`. -/
def projPnt (Pos Dir : Vector2d) (center : Vector3d) : Vector3d :=
  let tmpPos : Vector3d := ⟨Pos.x, Pos.y, 0⟩
  let tmpDir : Vector3d := ⟨Dir.x, Dir.y, 0⟩
  Vector3d.ProjectToLine (center.sub tmpPos) tmpDir

/-- Lines 462 and 510: the test after which the loop `continue`s (no touch). -/
def noTouch (Pos Dir : Vector2d) (center : Vector3d) : Prop :=
  let tmpPos : Vector3d := ⟨Pos.x, Pos.y, 0⟩
  let tmpDir : Vector3d := ⟨Dir.x, Dir.y, 0⟩
  let tmpStart : Vector3d := ⟨Pos.x - Dir.x, Pos.y - Dir.y, 0⟩
  tmpDir.dot (center.sub tmpPos) > 0 ∨ tmpDir.dot (center.sub tmpStart) < 0

instance (Pos Dir : Vector2d) (center : Vector3d) : Decidable (noTouch Pos Dir center) := by
  unfold noTouch; exact inferInstance

/-- Lines 485-496 and 540-551: the tangency `error` of the drawn line against
an ellipse, from the mirror image of one focus. -/
def ellipseError (E : Env) (Pos Dir : Vector2d) (center : Vector3d) (a b : ℚ)
    (majdir : Vector3d) : ℚ :=
  let tmpPos : Vector3d := ⟨Pos.x, Pos.y, 0⟩
  let cf := E.sqrt (a * a - b * b)
  let focus1P := center.add (Vector3d.smul cf majdir)
  let focus2P := center.sub (Vector3d.smul cf majdir)
  let norm := Vector3d.Normalize E ⟨Dir.y, -Dir.x, 0⟩
  let distancetoline := norm.dot (tmpPos.sub focus1P)
  let focus1PMirrored := focus1P.add (Vector3d.smul (2 * distancetoline) norm)
  |(focus1PMirrored.sub focus2P).Length E - 2 * a|

/-- Lines 562-568: the cursor's angular parameter on the ellipse, less
`startAngle`, reduced by `Base::fmod` and brought into the range of the arc. -/
def arcOfEllipseAngle (E : Env) (Pos : Vector2d) (center : Vector3d) (a b : ℚ)
    (majdir : Vector3d) (startAngle : ℚ) : ℚ :=
  let tmpPos : Vector3d := ⟨Pos.x, Pos.y, 0⟩
  let angle := E.fmod
    (E.atan2 (-a * ((tmpPos.x - center.x) * majdir.y - (tmpPos.y - center.y) * majdir.x))
             (b * ((tmpPos.x - center.x) * majdir.x + (tmpPos.y - center.y) * majdir.y))
      - startAngle) (2 * M_PI)
  bringToRange startAngle angle

/-- Lines 454-576: the body of the loop over the geometry list for one element,
followed by the `i++` of the loop header. -/
def tangentStep (E : Env) (Pos Dir : Vector2d) (st : TangState) (g : Geometry) : TangState :=
  let next (s : TangState) : TangState := { s with i := s.i + 1 }
  match g with
  | Geometry.GeomCircle center radius =>
    if noTouch Pos Dir center then next st
    else
      let projDist := |(projPnt Pos Dir center).Length E - radius|
      if projDist < st.tangDeviation then
        next { st with tangId := st.i, tangDeviation := projDist }
      else next st
  | Geometry.GeomEllipse center a b majdir =>
    let error := ellipseError E Pos Dir center a b majdir
    if error < st.tangDeviation then
      next { st with tangId := st.i, tangDeviation := error }
    else next st
  | Geometry.GeomArcOfCircle center radius startAngle endAngle =>
    if noTouch Pos Dir center then next st
    else
      let p := projPnt Pos Dir center
      let projDist := |p.Length E - radius|
      if projDist < st.tangDeviation then
        let angle := bringToRange startAngle (E.atan2 p.y p.x)
        if angle ≤ endAngle then
          next { st with tangId := st.i, tangDeviation := projDist }
        else next st
      else next st
  | Geometry.GeomArcOfEllipse center a b majdir startAngle endAngle =>
    let error := ellipseError E Pos Dir center a b majdir
    let st1 : TangState :=
      if error < st.tangDeviation then { st with tangId := st.i, tangDeviation := error }
      else st
    if error < st1.tangDeviation then
      let angle := arcOfEllipseAngle E Pos center a b majdir startAngle
      if angle ≤ endAngle then
        next { st1 with tangId := st1.i, tangDeviation := error }
      else next st1
    else next st1
  | _ => next st

/-- Lines 437-587: the geometry search and the Tangent suggestion it adds. -/
def tangentBlock (E : Env) (sketchgui : ViewProviderSketch)
    (suggestedConstraints : List AutoConstraint) (Pos Dir : Vector2d) : List AutoConstraint :=
  let geomlist := sketchgui.getSketchObject.getCompleteGeometry
  let st := geomlist.foldl (tangentStep E Pos Dir)
    ⟨0, E.GeoUndef, 0.1 * sketchgui.getScaleFactor⟩
  if st.tangId ≠ E.GeoUndef then
    let getHighestCurveIndex := sketchgui.getSketchObject.getHighestCurveIndex
    let tangId := if st.tangId > getHighestCurveIndex then getHighestCurveIndex - st.tangId
      else st.tangId
    suggestedConstraints ++ [⟨ConstraintType.Tangent, tangId, PointPos.none⟩]
  else suggestedConstraints

/-- `DrawSketchHandler::seekAutoConstraint`: the new content of
`suggestedConstraints` and the returned count; `none` is a null dereference. -/
def seekAutoConstraint (E : Env) (sketchgui : ViewProviderSketch)
    (suggestedConstraints : List AutoConstraint) (Pos Dir : Vector2d)
    (type : TargetType) : Option (List AutoConstraint × Int) :=
  let suggestedConstraints := clear suggestedConstraints
  if sketchgui.Autoconstraints = false then some (suggestedConstraints, 0)
  else
    match getPreselection E sketchgui with
    | Option.none => Option.none
    | some (GeoId, PosId, hitShapeDir) =>
      match preselectionBlock E sketchgui suggestedConstraints Dir type GeoId PosId
          hitShapeDir with
      | Option.none => Option.none
      | some (Sum.inl l) => some (l, l.length)
      | some (Sum.inr l) =>
        if Dir.Length E < 1e-8 ∨ type = TargetType.CURVE then some (l, l.length)
        else
          let l1 := horizontalVerticalBlock E l Dir
          let l2 := tangentBlock E sketchgui l1 Pos Dir
          some (l2, l2.length)

/-! ## A concrete environment, for evaluating the model on inputs -/

/-- A coarse rational arctangent on `[-1, 1]`, exact at `0` and `±1`. -/
def atanApprox (t : ℚ) : ℚ := M_PI / 4 * t + 0.273 * t * (1 - |t|)

/-- A coarse rational `atan2` by octant reduction, exact on the axes and the
diagonals. -/
def atan2Approx (y x : ℚ) : ℚ :=
  if x = 0 ∧ y = 0 then 0
  else if |y| ≤ |x| then
    if 0 < x then atanApprox (y / x)
    else if 0 ≤ y then atanApprox (y / x) + M_PI
    else atanApprox (y / x) - M_PI
  else if 0 < y then M_PI_2 - atanApprox (x / y)
  else -M_PI_2 - atanApprox (x / y)

/-- The environment used to run the model on explicit inputs: the rational
square root (exact on squares of rationals), the coarse `atan2`, the
non-negative remainder for `Base::fmod`, and the values FreeCAD gives the id
constants. -/
def refEnv : Env where
  sqrt := Rat.sqrt
  atan2 := atan2Approx
  fmod := fun a b => a - b * ⌊a / b⌋
  GeoUndef := -2000
  RtPnt := -1
  HAxis := -1
  VAxis := -2

/-- A sketch object with geometry list `geo` (no external geometry besides what
the list holds): ids are list positions. -/
def sketchOf (geo : List Geometry) : SketchObject where
  getGeoVertexIndex := fun _ => (-2000, PointPos.none)
  getGeometry := fun id => if 0 ≤ id then geo.get? id.toNat else Option.none
  getCompleteGeometry := geo
  getHighestCurveIndex := (geo.length : Int) - 1

/-- A view provider over `sketchOf geo` with auto-constraints enabled, scale
factor 1 and the given preselection. -/
def viewOf (geo : List Geometry) (preSelPnt preSelCrv preSelCrs : Int) : ViewProviderSketch where
  Autoconstraints := true
  getPreselectPoint := preSelPnt
  getPreselectCurve := preSelCrv
  getPreselectCross := preSelCrs
  getScaleFactor := 1
  getSketchObject := sketchOf geo

/-- The constraint type the specification gives for a preselected element:
Coincident for a VERTEX target on a point, PointOnObject for a CURVE target on
a point and for a VERTEX target on a curve that is not a B-spline, Tangent for
a CURVE target on a curve, and nothing (`None`) for a VERTEX target on a
B-spline. -/
def specPreselectionType (type : TargetType) (PosId : PointPos) (hitobject : Geometry) :
    ConstraintType :=
  match type, PosId, hitobject with
  | TargetType.VERTEX, PointPos.none, Geometry.GeomBSplineCurve => ConstraintType.None
  | TargetType.VERTEX, PointPos.none, _ => ConstraintType.PointOnObject
  | TargetType.CURVE, PointPos.none, _ => ConstraintType.Tangent
  | TargetType.VERTEX, _, _ => ConstraintType.Coincident
  | TargetType.CURVE, _, _ => ConstraintType.PointOnObject

/-- What lines 410-589 produce when nothing was suggested before them. -/
def directionSuggestions (E : Env) (sketchgui : ViewProviderSketch) (Pos Dir : Vector2d)
    (type : TargetType) : List AutoConstraint :=
  if Dir.Length E < 1e-8 ∨ type = TargetType.CURVE then []
  else tangentBlock E sketchgui (horizontalVerticalBlock E [] Dir) Pos Dir

/-! ## `createAutoConstraints` -/

/-- The calls `createAutoConstraints` makes, as recorded in order:
`Gui::Command::openCommand`, `Gui::Command::commitCommand`, the five
`addConstraint(Sketcher.Constraint(..))` commands with their arguments, and the
two helpers of `CommandConstraints`. -/
inductive Event
  | openCommand (name : String)
  | commitCommand
  | addCoincident (geoId1 : Int) (posId1 : PointPos) (geoId2 : Int) (posId2 : PointPos)
  | addPointOnObject (geoId1 : Int) (posId1 : PointPos) (geoId2 : Int)
  | addHorizontal (geoId1 : Int)
  | addVertical (geoId1 : Int)
  | addTangent (geoId1 geoId2 : Int)
  | makeTangentToEllipseviaNewPoint (geoId1 geoId2 : Int)
  | makeTangentToArcOfEllipseviaNewPoint (geoId1 geoId2 : Int)
deriving DecidableEq

/-- `geom && geom->getTypeId() == Part::GeomEllipse::getClassTypeId()`. -/
def isEllipse : Option Geometry → Bool
  | some (Geometry.GeomEllipse _ _ _ _) => true
  | _ => false

/-- `geom && geom->getTypeId() == Part::GeomArcOfEllipse::getClassTypeId()`. -/
def isArcOfEllipse : Option Geometry → Bool
  | some (Geometry.GeomArcOfEllipse _ _ _ _ _ _) => true
  | _ => false

/-- `geom && geom->getTypeId() == Part::GeomCircle::getClassTypeId()`. -/
def isCircle : Option Geometry → Bool
  | some (Geometry.GeomCircle _ _) => true
  | _ => false

/-- `geom && geom->getTypeId() == Part::GeomArcOfCircle::getClassTypeId()`. -/
def isArcOfCircle : Option Geometry → Bool
  | some (Geometry.GeomArcOfCircle _ _ _ _) => true
  | _ => false

/-- The variables of `createAutoConstraints` that live across iterations of its
loop: the by-value parameters `geoId1` and `posId1`, and the calls made so far. -/
structure CreateState where
  geoId1 : Int
  posId1 : PointPos
  events : List Event
deriving DecidableEq

/-- How an iteration of the loop ends: `break` out of the `switch` (so the
commit of lines 696-698 follows), `continue`, or `return`. -/
inductive Flow
  | break_
  | continue_
  | return_
deriving DecidableEq

/-- Lines 635-691: `case Sketcher::Tangent`. The geometries are fetched again
after each swap, as in the source; they were non-null before the swap, so they
are non-null after it. -/
def tangentCase (sketchgui : ViewProviderSketch) (st : CreateState) (it : AutoConstraint) :
    CreateState × Flow :=
  let Obj := sketchgui.getSketchObject
  let geom1 := Obj.getGeometry st.geoId1
  let geom2 := Obj.getGeometry it.GeoId
  let geoId1 := st.geoId1
  let geoId2 := it.GeoId
  -- ellipse tangency support using construction elements (lines)
  let enter1 : Bool := geom1.isSome && geom2.isSome && (isEllipse geom1 || isEllipse geom2)
  let swap1 : Bool := enter1 && !isEllipse geom1
  let (geoId1, geoId2) := if swap1 then (geoId2, geoId1) else (geoId1, geoId2)
  let geom1 := if enter1 then Obj.getGeometry geoId1 else geom1
  let geom2 := if enter1 then Obj.getGeometry geoId2 else geom2
  if enter1 && (isEllipse geom2 || isArcOfEllipse geom2 || isCircle geom2
      || isArcOfCircle geom2) then
    ({ st with geoId1 := geoId1,
               events := st.events ++ [Event.makeTangentToEllipseviaNewPoint geoId1 geoId2] },
      Flow.return_)
  else
    -- arc of ellipse tangency support using external elements
    let enter2 : Bool := geom1.isSome && geom2.isSome
      && (isArcOfEllipse geom1 || isArcOfEllipse geom2)
    let swap2 : Bool := enter2 && !isArcOfEllipse geom1
    let (geoId1, geoId2) := if swap2 then (geoId2, geoId1) else (geoId1, geoId2)
    let geom2 := if enter2 then Obj.getGeometry geoId2 else geom2
    if enter2 && (isArcOfEllipse geom2 || isCircle geom2 || isArcOfCircle geom2) then
      ({ st with geoId1 := geoId1,
                 events := st.events
                   ++ [Event.makeTangentToArcOfEllipseviaNewPoint geoId1 geoId2] },
        Flow.return_)
    else
      ({ st with geoId1 := geoId1,
                 events := st.events ++ [Event.addTangent geoId1 it.GeoId] },
        Flow.break_)

/-- Lines 608-694: the `switch` on the type of one suggestion. -/
def switchCase (sketchgui : ViewProviderSketch) (st : CreateState) (it : AutoConstraint) :
    CreateState × Flow :=
  match it.Type_ with
  | ConstraintType.Coincident =>
    if st.posId1 = PointPos.none then (st, Flow.continue_)
    else
      ({ st with events := st.events
          ++ [Event.addCoincident st.geoId1 st.posId1 it.GeoId it.PosId] }, Flow.break_)
  | ConstraintType.PointOnObject =>
    let geoId2 := it.GeoId
    let posId2 := it.PosId
    -- Auto constraining an edge so swap parameters
    let (geoId1, geoId2, posId1) :=
      if st.posId1 = PointPos.none then (geoId2, st.geoId1, posId2)
      else (st.geoId1, geoId2, st.posId1)
    ({ geoId1 := geoId1, posId1 := posId1,
       events := st.events ++ [Event.addPointOnObject geoId1 posId1 geoId2] }, Flow.break_)
  | ConstraintType.Horizontal =>
    ({ st with events := st.events ++ [Event.addHorizontal st.geoId1] }, Flow.break_)
  | ConstraintType.Vertical =>
    ({ st with events := st.events ++ [Event.addVertical st.geoId1] }, Flow.break_)
  | ConstraintType.Tangent => tangentCase sketchgui st it
  | _ => (st, Flow.break_)

/-- Lines 607-700: the loop over the suggestions, from state `st`; the result is
the state when the function leaves the loop (at its end or by `return`). -/
def createLoop (sketchgui : ViewProviderSketch) (createowncommand : Bool) :
    CreateState → List AutoConstraint → CreateState
  | st, [] => st
  | st, it :: rest =>
    match switchCase sketchgui st it with
    | (st1, Flow.return_) => st1
    | (st1, Flow.continue_) => createLoop sketchgui createowncommand st1 rest
    | (st1, Flow.break_) =>
      let st2 := if createowncommand then
          { st1 with events := st1.events ++ [Event.commitCommand] }
        else st1
      createLoop sketchgui createowncommand st2 rest

/-- `DrawSketchHandler::createAutoConstraints`: the calls it makes, in order. -/
def createAutoConstraints (sketchgui : ViewProviderSketch) (autoConstrs : List AutoConstraint)
    (geoId1 : Int) (posId1 : PointPos) (createowncommand : Bool) : List Event :=
  if sketchgui.Autoconstraints = false then []
  else if autoConstrs.length > 0 then
    let opened : List Event :=
      if createowncommand then [Event.openCommand "Add auto constraints"] else []
    (createLoop sketchgui createowncommand ⟨geoId1, posId1, opened⟩ autoConstrs).events
  else []

/-- The number of `openCommand` calls in a record. -/
def countOpen (evs : List Event) : Nat :=
  (evs.filter (fun e => match e with | Event.openCommand _ => true | _ => false)).length

/-- The number of `commitCommand` calls in a record. -/
def countCommit (evs : List Event) : Nat :=
  (evs.filter (fun e => match e with | Event.commitCommand => true | _ => false)).length

/-- A geometry the search can only pick as a circle: not an ellipse, an arc of
circle or an arc of ellipse. -/
def circlesOnly : Geometry → Prop
  | Geometry.GeomEllipse _ _ _ _ => False
  | Geometry.GeomArcOfCircle _ _ _ _ => False
  | Geometry.GeomArcOfEllipse _ _ _ _ _ _ => False
  | _ => True

/-- The specification's candidates: `some d` when `g` is a circle that passes
the touch test and whose deviation `d = |distance from its centre to the drawn
line - radius|` is below `limit`; `none` otherwise. -/
def circleCandidate (E : Env) (Pos Dir : Vector2d) (limit : ℚ) : Geometry → Option ℚ
  | Geometry.GeomCircle center radius =>
    if noTouch Pos Dir center then Option.none
    else if |(projPnt Pos Dir center).Length E - radius| < limit then
      some |(projPnt Pos Dir center).Length E - radius|
    else Option.none
  | _ => Option.none

/-- Lines 580-581: the geometry id of position `i` of the complete geometry
list; positions past the highest curve index are external geometry. -/
def indexToGeoId (sketchgui : ViewProviderSketch) (i : Int) : Int :=
  if i > sketchgui.getSketchObject.getHighestCurveIndex then
    sketchgui.getSketchObject.getHighestCurveIndex - i
  else i

/-- A sketch of three circles centred at (3/2, 1) with radii 19/20, 1 and 1;
nothing is preselected. -/
def threeCircles : ViewProviderSketch :=
  viewOf [Geometry.GeomCircle ⟨3 / 2, 1, 0⟩ (19 / 20), Geometry.GeomCircle ⟨3 / 2, 1, 0⟩ 1,
    Geometry.GeomCircle ⟨3 / 2, 1, 0⟩ 1] (-1) (-1) (-1)

/-- A sketch holding one arc of ellipse: centre (0, 0), radii 5 and 3, major
axis along x, angular range from 0 to `M_PI / 4`; nothing is preselected. -/
def arcSketch : ViewProviderSketch :=
  viewOf [Geometry.GeomArcOfEllipse ⟨0, 0, 0⟩ 5 3 ⟨1, 0, 0⟩ 0 (M_PI / 4)] (-1) (-1) (-1)

/-- An angle given in degrees, in radians: `d * M_PI / 180`. -/
def degrees (d : ℚ) : ℚ := d * M_PI / 180

/-! ## `suggestedConstraintsPixmaps` -/

/-- A `QPixmap` made by `BitmapFactory::pixmapFromSvg`: the icon's name and its
side in pixels. -/
structure QPixmap where
  iconType : String
  iconWidth : Int
deriving DecidableEq

/-- Conversion of a `double` to `int`: the fraction is dropped. -/
def toInt (q : ℚ) : Int := if 0 ≤ q then ⌊q⌋ else ⌈q⌉

/-- Lines 293-313: the `switch` that names the icon of a constraint type; the
empty string when the type has none. -/
def iconTypeOf (t : ConstraintType) : String :=
  match t with
  | ConstraintType.Horizontal => "Constraint_Horizontal"
  | ConstraintType.Vertical => "Constraint_Vertical"
  | ConstraintType.Coincident => "Constraint_PointOnPoint"
  | ConstraintType.PointOnObject => "Constraint_PointOnObject"
  | ConstraintType.Tangent => "Constraint_Tangent"
  | _ => ""

/-- `DrawSketchHandler::suggestedConstraintsPixmaps`; `pixelRatio` is the
device pixel ratio of the active view (1 when there is none). -/
def suggestedConstraintsPixmaps (pixelRatio : ℚ) (suggestedConstraints : List AutoConstraint) :
    List QPixmap :=
  suggestedConstraints.foldl
    (fun pixmaps it =>
      let iconType := iconTypeOf it.Type_
      if iconType ≠ "" then
        let iconWidth := toInt (16 * pixelRatio)
        pixmaps ++ [⟨iconType, iconWidth⟩]
      else pixmaps)
    []

/-- The types the specification gives an icon: Horizontal, Vertical,
Coincident, PointOnObject and Tangent. -/
def hasIcon (t : ConstraintType) : Bool :=
  match t with
  | ConstraintType.Horizontal => true
  | ConstraintType.Vertical => true
  | ConstraintType.Coincident => true
  | ConstraintType.PointOnObject => true
  | ConstraintType.Tangent => true
  | _ => false

/-- A sketch of a line segment (geometry 0) and an ellipse (geometry 1);
nothing is preselected. -/
def lineAndEllipse : ViewProviderSketch :=
  viewOf [Geometry.GeomLineSegment ⟨0, 0, 0⟩ ⟨1, 0, 0⟩,
    Geometry.GeomEllipse ⟨0, 3, 0⟩ 2 1 ⟨1, 0, 0⟩] (-1) (-1) (-1)

end SketcherGui

namespace Gui

/-! # The navigation cube (`Gui/NaviCube.cpp`)

A shallow embedding of the picking and mouse handling of
`NaviCubeImplementation`.

* `int` values are integers; the arithmetic of the read position in `pickFace`
  wraps at 32 bits (`wrap32`).
* `float` and `double` values are rationals with exact arithmetic.
* What OpenGL hands back from the picking framebuffer and what the preferences
  hold are fields of `NaviEnv`.
* Calls that change what the viewer shows are recorded, in order, as a list of
  `NaviEvent`s; the rendering made by `pickFace` is one such event.
* A rotation (`SbRotation`) is kept as the expression that builds it.
-/

/-! ## Pick ids (0 is reserved for 'nothing picked') -/

/-- Pick id `TEX_FRONT` of the enum on lines 212-238. -/
def TEX_FRONT : Int := 1

/-- Pick id `TEX_REAR` of the enum on lines 212-238. -/
def TEX_REAR : Int := 2

/-- Pick id `TEX_TOP` of the enum on lines 212-238. -/
def TEX_TOP : Int := 3

/-- Pick id `TEX_BOTTOM` of the enum on lines 212-238. -/
def TEX_BOTTOM : Int := 4

/-- Pick id `TEX_LEFT` of the enum on lines 212-238. -/
def TEX_LEFT : Int := 5

/-- Pick id `TEX_RIGHT` of the enum on lines 212-238. -/
def TEX_RIGHT : Int := 6

/-- Pick id `TEX_BACK_FACE` of the enum on lines 212-238. -/
def TEX_BACK_FACE : Int := 7

/-- Pick id `TEX_FRONT_FACE` of the enum on lines 212-238. -/
def TEX_FRONT_FACE : Int := 8

/-- Pick id `TEX_CORNER_FACE` of the enum on lines 212-238. -/
def TEX_CORNER_FACE : Int := 9

/-- Pick id `TEX_BOTTOM_RIGHT_REAR` of the enum on lines 212-238. -/
def TEX_BOTTOM_RIGHT_REAR : Int := 10

/-- Pick id `TEX_BOTTOM_FRONT_RIGHT` of the enum on lines 212-238. -/
def TEX_BOTTOM_FRONT_RIGHT : Int := 11

/-- Pick id `TEX_BOTTOM_LEFT_FRONT` of the enum on lines 212-238. -/
def TEX_BOTTOM_LEFT_FRONT : Int := 12

/-- Pick id `TEX_BOTTOM_REAR_LEFT` of the enum on lines 212-238. -/
def TEX_BOTTOM_REAR_LEFT : Int := 13

/-- Pick id `TEX_TOP_RIGHT_FRONT` of the enum on lines 212-238. -/
def TEX_TOP_RIGHT_FRONT : Int := 14

/-- Pick id `TEX_TOP_FRONT_LEFT` of the enum on lines 212-238. -/
def TEX_TOP_FRONT_LEFT : Int := 15

/-- Pick id `TEX_TOP_LEFT_REAR` of the enum on lines 212-238. -/
def TEX_TOP_LEFT_REAR : Int := 16

/-- Pick id `TEX_TOP_REAR_RIGHT` of the enum on lines 212-238. -/
def TEX_TOP_REAR_RIGHT : Int := 17

/-- Pick id `TEX_ARROW_NORTH` of the enum on lines 212-238. -/
def TEX_ARROW_NORTH : Int := 18

/-- Pick id `TEX_ARROW_SOUTH` of the enum on lines 212-238. -/
def TEX_ARROW_SOUTH : Int := 19

/-- Pick id `TEX_ARROW_EAST` of the enum on lines 212-238. -/
def TEX_ARROW_EAST : Int := 20

/-- Pick id `TEX_ARROW_WEST` of the enum on lines 212-238. -/
def TEX_ARROW_WEST : Int := 21

/-- Pick id `TEX_ARROW_RIGHT` of the enum on lines 212-238. -/
def TEX_ARROW_RIGHT : Int := 22

/-- Pick id `TEX_ARROW_LEFT` of the enum on lines 212-238. -/
def TEX_ARROW_LEFT : Int := 23

/-- Pick id `TEX_VIEW_MENU_ICON` of the enum on lines 212-238. -/
def TEX_VIEW_MENU_ICON : Int := 24

/-- Pick id `TEX_VIEW_MENU_FACE` of the enum on lines 212-238. -/
def TEX_VIEW_MENU_FACE : Int := 25

/-- `DIR_UP` of the enum on lines 239-241. -/
def DIR_UP : Int := 0

/-- `DIR_RIGHT` of the enum on lines 239-241. -/
def DIR_RIGHT : Int := 1

/-- `DIR_OUT` of the enum on lines 239-241. -/
def DIR_OUT : Int := 2

/-! ## State, environment and recorded calls -/

/-- `SbVec3f`. -/
structure SbVec3f where
  x : ℚ
  y : ℚ
  z : ℚ
deriving DecidableEq

/-- `SbRotation`: `setValue axis radians` is the rotation about an axis,
`mul a b` is `a * b`. -/
inductive SbRotation
  | setValue (axis : SbVec3f) (radians : ℚ)
  | mul (a b : SbRotation)
deriving DecidableEq

/-- The four bytes `glReadPixels` writes for one RGBA pixel. -/
structure Pixel where
  r : Nat
  g : Nat
  b : Nat
  a : Nat
deriving DecidableEq

/-- What the cube takes from outside: the pixel the picking framebuffer holds
at a position once the cube is drawn in pick mode, and the integer preference
`NaviStepByTurn` (`GetInt("NaviStepByTurn", 8)`). -/
structure NaviEnv where
  glReadPixels : Int → Int → Pixel
  NaviStepByTurn : Int

/-- The members of `NaviCubeImplementation` that picking and the mouse handlers
read or write; `m_PickingFramebuffer` is whether the pointer is non-null. -/
structure NaviCubeImplementation where
  m_CubeWidgetSize : Int
  m_CubeWidgetPosX : Int
  m_CubeWidgetPosY : Int
  m_HiliteId : Int
  m_MouseDown : Bool
  m_Dragging : Bool
  m_MightDrag : Bool
  m_PickingFramebuffer : Bool
deriving DecidableEq

/-- The calls recorded: `scheduleRedraw` of the render manager, the rendering
and read-back made by `pickFace(x, y)`, `setCameraOrientation`, `rotateView`
and `handleMenu`. -/
inductive NaviEvent
  | scheduleRedraw
  | pickFace (x y : Int)
  | setCameraOrientation (orientation : SbRotation)
  | rotateView (axis : Int) (rotAngle : ℚ)
  | handleMenu
deriving DecidableEq

/-! ## Picking -/

/-- A value of type `int` after an arithmetic operation: reduced to the
interval from -2^31 to 2^31 - 1. -/
def wrap32 (n : Int) : Int := (n + 2147483648) % 4294967296 - 2147483648

/-- Lines 822 and 1142: `m_CubeWidgetPosX - m_CubeWidgetSize/2`, the lower-left
corner of the square in which the cube is drawn (one coordinate). -/
def viewportCorner (pos size : Int) : Int := wrap32 (pos - Int.tdiv size 2)

/-- Line 1142: `2*(x - (m_CubeWidgetPosX - m_CubeWidgetSize/2))`, the position
read from the picking framebuffer (one coordinate). -/
def readCoord (x pos size : Int) : Int := wrap32 (2 * wrap32 (x - viewportCorner pos size))

/-- Line 818: the side of the picking framebuffer made by `initNaviCube`. -/
def pickingFramebufferSize (size : Int) : Int := wrap32 (2 * size)

/-- `NaviCubeImplementation::pickFace`: the value it returns. -/
def pickFace (env : NaviEnv) (nc : NaviCubeImplementation) (x y : Int) : Int :=
  let pixels : Pixel :=
    if nc.m_PickingFramebuffer then
      env.glReadPixels (readCoord x nc.m_CubeWidgetPosX nc.m_CubeWidgetSize)
        (readCoord y nc.m_CubeWidgetPosY nc.m_CubeWidgetSize)
    else ⟨0, 0, 0, 0⟩
  if pixels.a = 255 then (pixels.r : Int) else 0

/-! ## The faces and buttons drawn in pick mode -/

/-- `class Face` (lines 146-173) without its colour; a texture is named by its
index in `m_Textures`. -/
structure Face where
  m_FirstVertex : Int
  m_VertexCount : Int
  m_TextureId : Int
  m_PickId : Int
  m_PickTextureId : Int
  m_RenderPass : Int
deriving DecidableEq

/-- The arrays `addFace` fills: the number of vertices in `m_VertexArray`,
`m_IndexArray` and `m_Faces`. -/
structure CubeMesh where
  vertexCount : Int
  m_IndexArray : List Int
  m_Faces : List Face
deriving DecidableEq

/-- `NaviCubeImplementation::addFace`, on the arrays; the vertex coordinates
are not kept. -/
def addFace (m : CubeMesh) (frontTex backTex pickTex pickId : Int) (text : Bool) : CubeMesh :=
  let t := m.vertexCount
  let vertexCount := m.vertexCount + 4
  let ff : Face := ⟨m.m_IndexArray.length, 4, pickTex, pickId, pickTex, 1⟩
  let faces := m.m_Faces ++ [ff]
  let faces :=
    if text then
      faces ++ [(⟨m.m_IndexArray.length, 4, frontTex, pickId, pickTex, 2⟩ : Face)]
    else faces
  let indexArray := m.m_IndexArray ++ [t, t + 1, t + 2, t + 3]
  let bf : Face := ⟨indexArray.length, 4, backTex, pickId, backTex, 0⟩
  let faces := faces ++ [bf]
  let indexArray := indexArray ++ [t + 4 - 1 - 0, t + 4 - 1 - 1, t + 4 - 1 - 2, t + 4 - 1 - 3]
  ⟨vertexCount, indexArray, faces⟩

/-- Lines 757-808 of `initNaviCube`: the fourteen calls of `addFace`. -/
def initFaces : CubeMesh :=
  let m : CubeMesh := ⟨0, [], []⟩
  let m := addFace m TEX_TOP TEX_BACK_FACE TEX_FRONT_FACE TEX_TOP true
  let m := addFace m TEX_FRONT TEX_BACK_FACE TEX_FRONT_FACE TEX_FRONT true
  let m := addFace m TEX_LEFT TEX_BACK_FACE TEX_FRONT_FACE TEX_LEFT true
  let m := addFace m TEX_REAR TEX_BACK_FACE TEX_FRONT_FACE TEX_REAR true
  let m := addFace m TEX_RIGHT TEX_BACK_FACE TEX_FRONT_FACE TEX_RIGHT true
  let m := addFace m TEX_BOTTOM TEX_BACK_FACE TEX_FRONT_FACE TEX_BOTTOM true
  let m := addFace m TEX_CORNER_FACE TEX_CORNER_FACE TEX_CORNER_FACE TEX_BOTTOM_RIGHT_REAR false
  let m := addFace m TEX_CORNER_FACE TEX_CORNER_FACE TEX_CORNER_FACE TEX_BOTTOM_FRONT_RIGHT false
  let m := addFace m TEX_CORNER_FACE TEX_CORNER_FACE TEX_CORNER_FACE TEX_BOTTOM_LEFT_FRONT false
  let m := addFace m TEX_CORNER_FACE TEX_CORNER_FACE TEX_CORNER_FACE TEX_BOTTOM_REAR_LEFT false
  let m := addFace m TEX_CORNER_FACE TEX_CORNER_FACE TEX_CORNER_FACE TEX_TOP_RIGHT_FRONT false
  let m := addFace m TEX_CORNER_FACE TEX_CORNER_FACE TEX_CORNER_FACE TEX_TOP_FRONT_LEFT false
  let m := addFace m TEX_CORNER_FACE TEX_CORNER_FACE TEX_CORNER_FACE TEX_TOP_LEFT_REAR false
  addFace m TEX_CORNER_FACE TEX_CORNER_FACE TEX_CORNER_FACE TEX_TOP_REAR_RIGHT false

/-- Lines 810-815 of `initNaviCube`: `m_Buttons`. -/
def m_Buttons : List Int :=
  [TEX_ARROW_NORTH, TEX_ARROW_SOUTH, TEX_ARROW_EAST, TEX_ARROW_WEST, TEX_ARROW_LEFT,
    TEX_ARROW_RIGHT]

/-- The ids `drawNaviCube(true)` passes as red component to `glColor3ub`: the
pick id of every face (lines 1016-1020), every button (lines 1055-1057) and
`TEX_VIEW_MENU_FACE` (line 1077). -/
def pickModeIds (faces : List Face) (buttons : List Int) : List Int :=
  faces.map (fun f => f.m_PickId) ++ buttons ++ [TEX_VIEW_MENU_FACE]

/-- The byte `glColor3ub` receives for an `int` argument (conversion to
`GLubyte`). -/
def toGLubyte (v : Int) : Int := v % 256

/-! ## Mouse handling -/

/-- `NaviCubeImplementation::setHilite`. -/
def setHilite (nc : NaviCubeImplementation) (hilite : Int) :
    NaviCubeImplementation × List NaviEvent :=
  if hilite ≠ nc.m_HiliteId then
    ({ nc with m_HiliteId := hilite }, [NaviEvent.scheduleRedraw])
  else (nc, [])

/-- `NaviCubeImplementation::setView`: the one call it makes. -/
def setView (rotZ rotX : ℚ) : NaviEvent :=
  let rz := SbRotation.setValue ⟨0, 0, 1⟩ (rotZ * SketcherGui.M_PI / 180)
  let rx := SbRotation.setValue ⟨1, 0, 0⟩ (rotX * SketcherGui.M_PI / 180)
  NaviEvent.setCameraOrientation (SbRotation.mul rx rz)

/-- `Base::clamp(num, lower, upper)` of Base/Tools.h: `num` limited to the
interval from `lower` to `upper`. -/
def clamp (num lower upper : Int) : Int := max (min upper num) lower

/-- Lines 1220-1286: the `switch` of `mouseReleased` on the picked id; `none` is
the `default` case (`return false`), otherwise the one call the case makes. -/
def switchPick (pick : Int) (rot tilt rotStepAngle : ℚ) : Option NaviEvent :=
  if pick = TEX_FRONT then some (setView 0 90)
  else if pick = TEX_REAR then some (setView 180 90)
  else if pick = TEX_LEFT then some (setView 270 90)
  else if pick = TEX_RIGHT then some (setView 90 90)
  else if pick = TEX_TOP then some (setView 0 0)
  else if pick = TEX_BOTTOM then some (setView 0 180)
  else if pick = TEX_BOTTOM_LEFT_FRONT then some (setView (rot - 90) (90 + tilt))
  else if pick = TEX_BOTTOM_FRONT_RIGHT then some (setView (90 + rot - 90) (90 + tilt))
  else if pick = TEX_BOTTOM_RIGHT_REAR then some (setView (180 + rot - 90) (90 + tilt))
  else if pick = TEX_BOTTOM_REAR_LEFT then some (setView (270 + rot - 90) (90 + tilt))
  else if pick = TEX_TOP_RIGHT_FRONT then some (setView rot (90 - tilt))
  else if pick = TEX_TOP_FRONT_LEFT then some (setView (rot - 90) (90 - tilt))
  else if pick = TEX_TOP_LEFT_REAR then some (setView (rot - 180) (90 - tilt))
  else if pick = TEX_TOP_REAR_RIGHT then some (setView (rot - 270) (90 - tilt))
  else if pick = TEX_ARROW_LEFT then some (NaviEvent.rotateView DIR_OUT rotStepAngle)
  else if pick = TEX_ARROW_RIGHT then some (NaviEvent.rotateView DIR_OUT (-rotStepAngle))
  else if pick = TEX_ARROW_WEST then some (NaviEvent.rotateView DIR_UP (-rotStepAngle))
  else if pick = TEX_ARROW_EAST then some (NaviEvent.rotateView DIR_UP rotStepAngle)
  else if pick = TEX_ARROW_NORTH then some (NaviEvent.rotateView DIR_RIGHT (-rotStepAngle))
  else if pick = TEX_ARROW_SOUTH then some (NaviEvent.rotateView DIR_RIGHT rotStepAngle)
  else if pick = TEX_VIEW_MENU_FACE then some NaviEvent.handleMenu
  else Option.none

/-- Line 1211: `tilt`, 90 less 54.7356 degrees. -/
def tilt : ℚ := 90 - 54.7356

/-- `NaviCubeImplementation::mouseReleased`: the value returned, the members
afterwards and the calls made. -/
def mouseReleased (env : NaviEnv) (nc : NaviCubeImplementation) (x y : Int) :
    Bool × NaviCubeImplementation × List NaviEvent :=
  let (nc, ev) := setHilite nc 0
  let nc := { nc with m_MouseDown := false }
  if !nc.m_Dragging then
    let rot : ℚ := 45
    let tilt : ℚ := tilt
    let pick := pickFace env nc x y
    let ev := ev ++ [NaviEvent.pickFace x y]
    let step := clamp env.NaviStepByTurn 4 36
    let rotStepAngle : ℚ := 360 / step
    match switchPick pick rot tilt rotStepAngle with
    | Option.none => (false, nc, ev)
    | some call => (true, nc, ev ++ [call])
  else (true, nc, ev)

/-- The ids on which `mouseReleased` acts, as the specification lists them: the
6 main faces, the 8 corners, the 6 arrow buttons and `TEX_VIEW_MENU_FACE`. -/
def actingIds : List Int :=
  [TEX_FRONT, TEX_REAR, TEX_TOP, TEX_BOTTOM, TEX_LEFT, TEX_RIGHT,
    TEX_BOTTOM_RIGHT_REAR, TEX_BOTTOM_FRONT_RIGHT, TEX_BOTTOM_LEFT_FRONT, TEX_BOTTOM_REAR_LEFT,
    TEX_TOP_RIGHT_FRONT, TEX_TOP_FRONT_LEFT, TEX_TOP_LEFT_REAR, TEX_TOP_REAR_RIGHT,
    TEX_ARROW_NORTH, TEX_ARROW_SOUTH, TEX_ARROW_EAST, TEX_ARROW_WEST, TEX_ARROW_RIGHT,
    TEX_ARROW_LEFT, TEX_VIEW_MENU_FACE]

/-- Whether a recorded call touches the camera or the menu. -/
def touchesCameraOrMenu : NaviEvent → Bool
  | NaviEvent.setCameraOrientation _ => true
  | NaviEvent.rotateView _ _ => true
  | NaviEvent.handleMenu => true
  | _ => false

/-- Whether a recorded call is a picking render. -/
def isPick : NaviEvent → Bool
  | NaviEvent.pickFace _ _ => true
  | _ => false

/-- The view orientations of the six main faces as the specification lists
them: pick id, rotZ and rotX in degrees. -/
def mainFaceViews : List (Int × ℚ × ℚ) :=
  [(TEX_FRONT, 0, 90), (TEX_REAR, 180, 90), (TEX_LEFT, 270, 90), (TEX_RIGHT, 90, 90),
    (TEX_TOP, 0, 0), (TEX_BOTTOM, 0, 180)]

/-- The view orientations of the eight corners as the specification lists them:
pick id, rotZ modulo 360 and rotX in degrees. -/
def cornerViews : List (Int × ℚ × ℚ) :=
  [(TEX_BOTTOM_FRONT_RIGHT, 45, 90 + tilt), (TEX_BOTTOM_RIGHT_REAR, 135, 90 + tilt),
    (TEX_BOTTOM_REAR_LEFT, 225, 90 + tilt), (TEX_BOTTOM_LEFT_FRONT, 315, 90 + tilt),
    (TEX_TOP_RIGHT_FRONT, 45, 90 - tilt), (TEX_TOP_REAR_RIGHT, 135, 90 - tilt),
    (TEX_TOP_LEFT_REAR, 225, 90 - tilt), (TEX_TOP_FRONT_LEFT, 315, 90 - tilt)]

/-- A cube of side 132 centred at (100, 100), the picking framebuffer made,
no drag in progress, the FRONT face highlighted and the mouse button down. -/
def cubeAt100 : NaviCubeImplementation :=
  ⟨132, 100, 100, TEX_FRONT, true, false, false, true⟩

/-- An environment whose picking framebuffer shows pick id `id`, fully opaque,
at every position; eight steps by turn. -/
def showing (id : Nat) : NaviEnv :=
  ⟨fun _ _ => ⟨id, 0, 0, 255⟩, 8⟩

end Gui

namespace SketcherGui

/-! ## Properties of `seekAutoConstraint` -/

theorem horizontalVerticalBlock_append (E : Env) (l : List AutoConstraint) (Dir : Vector2d) :
    horizontalVerticalBlock E l Dir = l ++ horizontalVerticalBlock E [] Dir := by
  unfold horizontalVerticalBlock
  simp only []
  split_ifs <;> simp

theorem tangentBlock_append (E : Env) (sketchgui : ViewProviderSketch)
    (l : List AutoConstraint) (Pos Dir : Vector2d) :
    tangentBlock E sketchgui l Pos Dir = l ++ tangentBlock E sketchgui [] Pos Dir := by
  unfold tangentBlock
  simp only []
  split_ifs <;> simp

theorem preselectionConstraint_eq (sketchgui : ViewProviderSketch) (type : TargetType)
    (GeoId : Int) (PosId : PointPos) (g : Geometry)
    (hg : sketchgui.getSketchObject.getGeometry GeoId = some g) :
    preselectionConstraint sketchgui type GeoId PosId
      = some ⟨specPreselectionType type PosId g, GeoId, PosId⟩ := by
  unfold preselectionConstraint specPreselectionType
  cases type <;> cases PosId <;> cases g <;> simp [hg]

/-- After the preselection block fell through with list `l`, the function
returns `l` followed by the direction and search suggestions. -/
theorem seekAutoConstraint_of_fallthrough (E : Env) (sketchgui : ViewProviderSketch)
    (prior : List AutoConstraint) (Pos Dir : Vector2d) (type : TargetType)
    (GeoId : Int) (PosId : PointPos) (hitShapeDir : Vector3d) (l : List AutoConstraint)
    (hauto : sketchgui.Autoconstraints = true)
    (hpre : getPreselection E sketchgui = some (GeoId, PosId, hitShapeDir))
    (hblock : preselectionBlock E sketchgui [] Dir type GeoId PosId hitShapeDir
      = some (Sum.inr l)) :
    seekAutoConstraint E sketchgui prior Pos Dir type
      = some (l ++ directionSuggestions E sketchgui Pos Dir type,
          ((l ++ directionSuggestions E sketchgui Pos Dir type).length : Int)) := by
  unfold seekAutoConstraint directionSuggestions
  simp only [hauto, clear, hpre, hblock]
  by_cases hd : Dir.Length E < 1e-8 ∨ type = TargetType.CURVE
  · simp [hd]
  · simp only [hd, if_false]
    rw [tangentBlock_append, horizontalVerticalBlock_append,
      tangentBlock_append E sketchgui (horizontalVerticalBlock E [] Dir)]
    simp


theorem specPreselectionType_tangent (type : TargetType) (PosId : PointPos) (g : Geometry)
    (h : specPreselectionType type PosId g = ConstraintType.Tangent) :
    type = TargetType.CURVE := by
  unfold specPreselectionType at h
  cases type <;> cases PosId <;> cases g <;> simp at h ⊢

theorem specPreselectionType_range (type : TargetType) (PosId : PointPos) (g : Geometry) :
    specPreselectionType type PosId g = ConstraintType.None
    ∨ specPreselectionType type PosId g = ConstraintType.Coincident
    ∨ specPreselectionType type PosId g = ConstraintType.PointOnObject
    ∨ specPreselectionType type PosId g = ConstraintType.Tangent := by
  unfold specPreselectionType
  cases type <;> cases PosId <;> cases g <;> simp

theorem preselectionConstraint_type (sketchgui : ViewProviderSketch) (type : TargetType)
    (GeoId : Int) (PosId : PointPos) (c : AutoConstraint)
    (h : preselectionConstraint sketchgui type GeoId PosId = some c) :
    c.Type_ = ConstraintType.None ∨ c.Type_ = ConstraintType.Coincident
    ∨ c.Type_ = ConstraintType.PointOnObject ∨ c.Type_ = ConstraintType.Tangent := by
  cases hg : sketchgui.getSketchObject.getGeometry GeoId with
  | none =>
    unfold preselectionConstraint at h
    cases type <;> cases PosId <;> simp [hg] at h <;> subst h <;> simp
  | some g =>
    rw [preselectionConstraint_eq sketchgui type GeoId PosId g hg] at h
    cases h
    exact specPreselectionType_range type PosId g

theorem preselectionBlock_types (E : Env) (sketchgui : ViewProviderSketch) (Dir : Vector2d)
    (type : TargetType) (GeoId : Int) (PosId : PointPos) (hitShapeDir : Vector3d)
    (r : List AutoConstraint ⊕ List AutoConstraint)
    (h : preselectionBlock E sketchgui [] Dir type GeoId PosId hitShapeDir = some r) :
    ∀ c ∈ Sum.elim id id r, c.Type_ = ConstraintType.Coincident
      ∨ c.Type_ = ConstraintType.PointOnObject ∨ c.Type_ = ConstraintType.Tangent := by
  unfold preselectionBlock at h
  by_cases hdef : GeoId ≠ E.GeoUndef
  · simp only [hdef, if_true] at h
    cases hc : preselectionConstraint sketchgui type GeoId PosId with
    | none => simp [hc, hdef] at h
    | some constr =>
      have ht := preselectionConstraint_type sketchgui type GeoId PosId constr hc
      simp only [hc] at h
      split_ifs at h with h1 h2 h3 <;> cases h <;> intro c hmem <;>
        simp at hmem <;> subst hmem
      · simp [h1.1]
      · rcases ht with ht | ht | ht | ht
        · exact absurd ht h3
        · simp [ht]
        · simp [ht]
        · simp [ht]
  · simp only [hdef, if_false] at h
    cases h
    simp

theorem horizontalVerticalBlock_types (E : Env) (Dir : Vector2d) :
    ∀ c ∈ horizontalVerticalBlock E [] Dir,
      c.Type_ = ConstraintType.Horizontal ∨ c.Type_ = ConstraintType.Vertical := by
  unfold horizontalVerticalBlock
  simp only []
  intro c hc
  split_ifs at hc with h1 h2 h3 h4 h5 <;> simp at hc <;> try (subst hc; simp)
  exact h5 rfl

theorem tangentBlock_types (E : Env) (sketchgui : ViewProviderSketch) (Pos Dir : Vector2d) :
    ∀ c ∈ tangentBlock E sketchgui [] Pos Dir, c.Type_ = ConstraintType.Tangent := by
  unfold tangentBlock
  simp only []
  intro c hc
  split_ifs at hc <;> simp at hc <;> subst hc <;> rfl

theorem directionSuggestions_types (E : Env) (sketchgui : ViewProviderSketch)
    (Pos Dir : Vector2d) (type : TargetType) :
    ∀ c ∈ directionSuggestions E sketchgui Pos Dir type,
      c.Type_ = ConstraintType.Horizontal ∨ c.Type_ = ConstraintType.Vertical
      ∨ c.Type_ = ConstraintType.Tangent := by
  unfold directionSuggestions
  intro c hc
  split_ifs at hc
  · simp at hc
  · rw [tangentBlock_append] at hc
    rcases List.mem_append.mp hc with h | h
    · rcases horizontalVerticalBlock_types E Dir c h with h | h <;> simp [h]
    · simp [tangentBlock_types E sketchgui Pos Dir c h]

theorem preselectionBlock_vertex (E : Env) (sketchgui : ViewProviderSketch) (Dir : Vector2d)
    (GeoId : Int) (PosId : PointPos) (hitShapeDir : Vector3d)
    (r : List AutoConstraint ⊕ List AutoConstraint)
    (h : preselectionBlock E sketchgui [] Dir TargetType.VERTEX GeoId PosId hitShapeDir
      = some r) :
    ∃ l0, r = Sum.inr l0 ∧ ∀ c ∈ l0, c.Type_ = ConstraintType.Coincident
      ∨ c.Type_ = ConstraintType.PointOnObject := by
  have hty := preselectionBlock_types E sketchgui Dir TargetType.VERTEX GeoId PosId
    hitShapeDir r h
  unfold preselectionBlock at h
  by_cases hdef : GeoId ≠ E.GeoUndef
  · simp only [hdef, if_true] at h
    cases hc : preselectionConstraint sketchgui TargetType.VERTEX GeoId PosId with
    | none => simp [hc, hdef] at h
    | some constr =>
      have hnt : constr.Type_ ≠ ConstraintType.Tangent := by
        unfold preselectionConstraint at hc
        cases hg : sketchgui.getSketchObject.getGeometry GeoId <;> cases PosId <;>
          simp [hg] at hc
        all_goals first
          | (subst hc; simp)
          | (split at hc <;> simp at hc <;> subst hc <;> simp)
      simp only [hc] at h
      simp only [hnt, false_and, if_false] at h
      split_ifs at h with h3
      · cases h
        refine ⟨_, rfl, ?_⟩
        intro c hmem
        rcases hty c (by simpa using hmem) with h1 | h1 | h1
        · exact Or.inl h1
        · exact Or.inr h1
        · simp at hmem; subst hmem; exact absurd h1 hnt
      · cases h
        exact ⟨_, rfl, by simp⟩
  · simp only [hdef, if_false] at h
    cases h
    exact ⟨_, rfl, by simp⟩

/-- The horizontal test of line 425, on `angle = |atan2(Dir.y, Dir.x)|`. -/
theorem horizontalVerticalBlock_horizontal (E : Env) (Dir : Vector2d) :
    (∃ c ∈ horizontalVerticalBlock E [] Dir, c.Type_ = ConstraintType.Horizontal)
      ↔ (|E.atan2 Dir.y Dir.x| < angleDevRad ∨ M_PI - |E.atan2 Dir.y Dir.x| < angleDevRad) := by
  unfold horizontalVerticalBlock
  simp only []
  split_ifs with h1 h2 h3 h4 h5 <;> simp_all

/-- The two tests of lines 425 and 428 exclude each other: pi/2 is more than
twice the deviation away from 0 and from pi. -/
theorem vertical_not_horizontal (a : ℚ) (hv : |a - M_PI_2| < angleDevRad) :
    ¬ (a < angleDevRad ∨ M_PI - a < angleDevRad) := by
  rw [abs_lt] at hv
  unfold angleDevRad M_PI M_PI_2 at *
  rintro (h | h) <;> linarith [hv.1, hv.2]

theorem horizontalVerticalBlock_vertical (E : Env) (Dir : Vector2d) :
    (∃ c ∈ horizontalVerticalBlock E [] Dir, c.Type_ = ConstraintType.Vertical)
      ↔ |(|E.atan2 Dir.y Dir.x|) - M_PI_2| < angleDevRad := by
  have hex := vertical_not_horizontal |E.atan2 Dir.y Dir.x|
  unfold horizontalVerticalBlock
  simp only []
  split_ifs with h1 h2 h3 h4 h5
  · simp
    exact not_lt.mp (fun hv => hex hv h1)
  · simp at h2
  · simp [h3]
  · simp at h4
  · simp at h5
  · simp [h3]

/-- For a VERTEX target and a direction that is not too short, the returned
list is: suggestions of type Coincident or PointOnObject, then the
horizontal / vertical suggestion, then the search's Tangent suggestion. -/
theorem seekAutoConstraint_vertex_shape (E : Env) (sketchgui : ViewProviderSketch)
    (prior : List AutoConstraint) (Pos Dir : Vector2d) (l : List AutoConstraint) (n : Int)
    (hlen : 1e-8 ≤ Dir.Length E)
    (h : seekAutoConstraint E sketchgui prior Pos Dir TargetType.VERTEX = some (l, n)) :
    (sketchgui.Autoconstraints = false ∧ l = []) ∨
    ∃ l0, (∀ c ∈ l0, c.Type_ = ConstraintType.Coincident
        ∨ c.Type_ = ConstraintType.PointOnObject)
      ∧ l = l0 ++ (horizontalVerticalBlock E [] Dir ++ tangentBlock E sketchgui [] Pos Dir) := by
  cases hauto : sketchgui.Autoconstraints with
  | false =>
    simp [seekAutoConstraint, hauto, clear] at h
    exact Or.inl ⟨rfl, h.1⟩
  | true =>
    right
    cases hpre : getPreselection E sketchgui with
    | none => simp [seekAutoConstraint, hauto, hpre] at h
    | some p =>
      obtain ⟨GeoId, PosId, hitShapeDir⟩ := p
      cases hb : preselectionBlock E sketchgui [] Dir TargetType.VERTEX GeoId PosId
          hitShapeDir with
      | none => simp [seekAutoConstraint, hauto, hpre, hb, clear] at h
      | some r =>
        obtain ⟨l0, rfl, hl0⟩ := preselectionBlock_vertex E sketchgui Dir GeoId PosId
          hitShapeDir r hb
        rw [seekAutoConstraint_of_fallthrough E sketchgui prior Pos Dir TargetType.VERTEX
          GeoId PosId hitShapeDir l0 hauto hpre hb] at h
        simp only [Option.some.injEq, Prod.mk.injEq] at h
        refine ⟨l0, hl0, ?_⟩
        rw [← h.1]
        have hd : ¬ (Dir.Length E < 1e-8 ∨ TargetType.VERTEX = TargetType.CURVE) := by
          simp [not_lt.mpr hlen]
        simp only [directionSuggestions, hd, if_false]
        rw [tangentBlock_append]

/-- C1: with the `Autoconstraints` property off, `seekAutoConstraint` returns 0
and leaves the suggestion list empty, whatever the list held before and for
every cursor position, direction and target type. -/
theorem seekAutoConstraint_off (E : Env) (sketchgui : ViewProviderSketch)
    (suggestedConstraints : List AutoConstraint) (Pos Dir : Vector2d) (type : TargetType)
    (hoff : sketchgui.Autoconstraints = false) :
    seekAutoConstraint E sketchgui suggestedConstraints Pos Dir type = some ([], 0) := by
  simp [seekAutoConstraint, hoff, clear]

/-- C1 at an input: a sketch with a preselected point and two stale entries in
the list. -/
theorem seekAutoConstraint_off_witness :
    seekAutoConstraint refEnv { viewOf [] 3 (-1) (-1) with Autoconstraints := false }
      [⟨ConstraintType.Tangent, 4, PointPos.none⟩, ⟨ConstraintType.Horizontal, 0, PointPos.none⟩]
      ⟨1, 2⟩ ⟨1, 0⟩ TargetType.VERTEX = some ([], 0) :=
  seekAutoConstraint_off refEnv _ _ _ _ _ rfl

/-- C2: for a preselected element (`GeoId` defined, with geometry `g`) the
constraint derived by `seekAutoConstraint` has the type the specification
lists (Coincident, PointOnObject, Tangent, or none for a VERTEX target on a
B-spline) and carries the preselection's `GeoId` and `PosId`. In the returned
list a Coincident or PointOnObject suggestion is the first entry, a Tangent
suggestion is the only entry if it passes the angle test, and for a B-spline
nothing comes from the preselection. -/
theorem seekAutoConstraint_preselection (E : Env) (sketchgui : ViewProviderSketch)
    (prior : List AutoConstraint) (Pos Dir : Vector2d) (type : TargetType)
    (GeoId : Int) (PosId : PointPos) (hitShapeDir : Vector3d) (g : Geometry)
    (hauto : sketchgui.Autoconstraints = true)
    (hpre : getPreselection E sketchgui = some (GeoId, PosId, hitShapeDir))
    (hdef : GeoId ≠ E.GeoUndef)
    (hg : sketchgui.getSketchObject.getGeometry GeoId = some g) :
    preselectionConstraint sketchgui type GeoId PosId
      = some ⟨specPreselectionType type PosId g, GeoId, PosId⟩
    ∧ ∃ l n, seekAutoConstraint E sketchgui prior Pos Dir type = some (l, n)
      ∧ (specPreselectionType type PosId g = ConstraintType.Coincident
          ∨ specPreselectionType type PosId g = ConstraintType.PointOnObject →
          l = ⟨specPreselectionType type PosId g, GeoId, PosId⟩
            :: directionSuggestions E sketchgui Pos Dir type)
      ∧ (specPreselectionType type PosId g = ConstraintType.Tangent →
          l = [⟨ConstraintType.Tangent, GeoId, PosId⟩] ∨ l = [])
      ∧ (specPreselectionType type PosId g = ConstraintType.None →
          l = directionSuggestions E sketchgui Pos Dir type) := by
  have hc := preselectionConstraint_eq sketchgui type GeoId PosId g hg
  refine ⟨hc, ?_⟩
  have hfall : ∀ l, preselectionBlock E sketchgui [] Dir type GeoId PosId hitShapeDir
      = some (Sum.inr l) →
      seekAutoConstraint E sketchgui prior Pos Dir type
        = some (l ++ directionSuggestions E sketchgui Pos Dir type,
            ((l ++ directionSuggestions E sketchgui Pos Dir type).length : Int)) :=
    fun l hl => seekAutoConstraint_of_fallthrough E sketchgui prior Pos Dir type GeoId PosId
      hitShapeDir l hauto hpre hl
  rcases specPreselectionType_range type PosId g with ht | ht | ht | ht
  · have hb : preselectionBlock E sketchgui [] Dir type GeoId PosId hitShapeDir
        = some (Sum.inr []) := by
      simp [preselectionBlock, hdef, hc, ht]
    exact ⟨_, _, hfall _ hb, by simp [ht], by simp [ht], by simp⟩
  · have hb : preselectionBlock E sketchgui [] Dir type GeoId PosId hitShapeDir
        = some (Sum.inr [⟨ConstraintType.Coincident, GeoId, PosId⟩]) := by
      simp [preselectionBlock, hdef, hc, ht]
    exact ⟨_, _, hfall _ hb, by simp [ht], by simp [ht], by simp [ht]⟩
  · have hb : preselectionBlock E sketchgui [] Dir type GeoId PosId hitShapeDir
        = some (Sum.inr [⟨ConstraintType.PointOnObject, GeoId, PosId⟩]) := by
      simp [preselectionBlock, hdef, hc, ht]
    exact ⟨_, _, hfall _ hb, by simp [ht], by simp [ht], by simp [ht]⟩
  · have hcurve := specPreselectionType_tangent type PosId g ht
    by_cases hlen : Dir.Length E > 1e-8 ∧ hitShapeDir.Length E > 1e-8
    · by_cases hcos : |cosangle E Dir hitShapeDir| < 0.995
          ∨ ((GeoId = E.HAxis ∨ GeoId = E.VAxis) ∧ |cosangle E Dir hitShapeDir| < 0.1)
      · have hb : preselectionBlock E sketchgui [] Dir type GeoId PosId hitShapeDir
            = some (Sum.inl [⟨ConstraintType.Tangent, GeoId, PosId⟩]) := by
          simp only [preselectionBlock, hc, ht]
          simp [hdef, hlen, hcos]
        refine ⟨[⟨ConstraintType.Tangent, GeoId, PosId⟩], 1, ?_, by simp [ht], by simp, by simp [ht]⟩
        simp only [seekAutoConstraint, hauto, clear, hpre, hb]
        simp
      · have hb : preselectionBlock E sketchgui [] Dir type GeoId PosId hitShapeDir
            = some (Sum.inl []) := by
          simp only [preselectionBlock, hc, ht]
          simp [hdef, hlen, hcos]
        refine ⟨[], 0, ?_, by simp [ht], by simp, by simp [ht]⟩
        simp only [seekAutoConstraint, hauto, clear, hpre, hb]
        simp
    · have hb : preselectionBlock E sketchgui [] Dir type GeoId PosId hitShapeDir
          = some (Sum.inr [⟨ConstraintType.Tangent, GeoId, PosId⟩]) := by
        simp only [preselectionBlock, hc, ht]
        simp [hdef, hlen]
      refine ⟨_, _, hfall _ hb, by simp [ht], ?_, by simp [ht]⟩
      intro _
      left
      simp [directionSuggestions, hcurve]

/-- C2 at an input: a VERTEX target over a preselected line segment (curve 0)
gets PointOnObject on that segment; the direction is too short for anything
else. -/
theorem seekAutoConstraint_preselection_witness :
    preselectionConstraint
        (viewOf [Geometry.GeomLineSegment ⟨0, 0, 0⟩ ⟨1, 0, 0⟩] (-1) 0 (-1))
        TargetType.VERTEX 0 PointPos.none
      = some ⟨ConstraintType.PointOnObject, 0, PointPos.none⟩ :=
  (seekAutoConstraint_preselection refEnv
    (viewOf [Geometry.GeomLineSegment ⟨0, 0, 0⟩ ⟨1, 0, 0⟩] (-1) 0 (-1)) [] ⟨0, 0⟩ ⟨0, 0⟩
    TargetType.VERTEX 0 PointPos.none (Vector3d.sub ⟨1, 0, 0⟩ ⟨0, 0, 0⟩)
    (Geometry.GeomLineSegment ⟨0, 0, 0⟩ ⟨1, 0, 0⟩) rfl (by simp [getPreselection, viewOf, sketchOf])
    (by decide) (by simp [viewOf, sketchOf])).1

/-- C3: every entry of the list `seekAutoConstraint` returns has type
Coincident, PointOnObject, Tangent, Horizontal or Vertical; in particular no
entry has type None, for every preselection, direction and geometry list. -/
theorem seekAutoConstraint_types (E : Env) (sketchgui : ViewProviderSketch)
    (prior : List AutoConstraint) (Pos Dir : Vector2d) (type : TargetType)
    (l : List AutoConstraint) (n : Int)
    (h : seekAutoConstraint E sketchgui prior Pos Dir type = some (l, n)) :
    ∀ c ∈ l, (c.Type_ = ConstraintType.Coincident ∨ c.Type_ = ConstraintType.PointOnObject
      ∨ c.Type_ = ConstraintType.Tangent ∨ c.Type_ = ConstraintType.Horizontal
      ∨ c.Type_ = ConstraintType.Vertical) ∧ c.Type_ ≠ ConstraintType.None := by
  have key : ∀ c ∈ l, c.Type_ = ConstraintType.Coincident
      ∨ c.Type_ = ConstraintType.PointOnObject
      ∨ c.Type_ = ConstraintType.Tangent ∨ c.Type_ = ConstraintType.Horizontal
      ∨ c.Type_ = ConstraintType.Vertical := by
    cases hauto : sketchgui.Autoconstraints with
    | false =>
      simp [seekAutoConstraint, hauto, clear] at h
      obtain ⟨rfl, _⟩ := h
      simp
    | true =>
      cases hpre : getPreselection E sketchgui with
      | none => simp [seekAutoConstraint, hauto, hpre] at h
      | some p =>
        obtain ⟨GeoId, PosId, hitShapeDir⟩ := p
        cases hb : preselectionBlock E sketchgui [] Dir type GeoId PosId hitShapeDir with
        | none => simp [seekAutoConstraint, hauto, hpre, hb, clear] at h
        | some r =>
          have hr := preselectionBlock_types E sketchgui Dir type GeoId PosId hitShapeDir r hb
          cases r with
          | inl l0 =>
            simp only [seekAutoConstraint, hauto, hpre, hb, clear] at h
            simp at h
            obtain ⟨rfl, _⟩ := h
            intro c hc
            rcases hr c (by simpa using hc) with h1 | h1 | h1 <;> simp [h1]
          | inr l0 =>
            rw [seekAutoConstraint_of_fallthrough E sketchgui prior Pos Dir type GeoId PosId
              hitShapeDir l0 hauto hpre hb] at h
            simp at h
            obtain ⟨rfl, _⟩ := h
            intro c hc
            rcases List.mem_append.mp hc with hc | hc
            · rcases hr c (by simpa using hc) with h1 | h1 | h1 <;> simp [h1]
            · rcases directionSuggestions_types E sketchgui Pos Dir type c hc
                with h1 | h1 | h1 <;> simp [h1]
  intro c hc
  refine ⟨key c hc, ?_⟩
  rcases key c hc with h1 | h1 | h1 | h1 | h1 <;> simp [h1]

/-- A CURVE target over the preselected root point returns the single
suggestion PointOnObject on the root point. -/
theorem seek_root_point :
    seekAutoConstraint refEnv (viewOf [] (-1) (-1) 0) [] ⟨0, 0⟩ ⟨0, 0⟩ TargetType.CURVE
      = some ([⟨ConstraintType.PointOnObject, -1, PointPos.start⟩], 1) := by
  simp [seekAutoConstraint, getPreselection, preselectionBlock, preselectionConstraint,
    viewOf, sketchOf, refEnv, clear]

/-- C3 at an input: the entry returned for a CURVE target over the preselected
root point has one of the five types and is not None. -/
theorem seekAutoConstraint_types_witness :
    ((⟨ConstraintType.PointOnObject, -1, PointPos.start⟩ : AutoConstraint).Type_
        = ConstraintType.Coincident
      ∨ (⟨ConstraintType.PointOnObject, -1, PointPos.start⟩ : AutoConstraint).Type_
        = ConstraintType.PointOnObject
      ∨ (⟨ConstraintType.PointOnObject, -1, PointPos.start⟩ : AutoConstraint).Type_
        = ConstraintType.Tangent
      ∨ (⟨ConstraintType.PointOnObject, -1, PointPos.start⟩ : AutoConstraint).Type_
        = ConstraintType.Horizontal
      ∨ (⟨ConstraintType.PointOnObject, -1, PointPos.start⟩ : AutoConstraint).Type_
        = ConstraintType.Vertical)
    ∧ (⟨ConstraintType.PointOnObject, -1, PointPos.start⟩ : AutoConstraint).Type_
        ≠ ConstraintType.None :=
  seekAutoConstraint_types refEnv (viewOf [] (-1) (-1) 0) [] ⟨0, 0⟩ ⟨0, 0⟩ TargetType.CURVE
    [⟨ConstraintType.PointOnObject, -1, PointPos.start⟩] 1 seek_root_point
    ⟨ConstraintType.PointOnObject, -1, PointPos.start⟩ (List.mem_singleton.mpr rfl)

theorem rat_sqrt_25 : Rat.sqrt 25 = 5 := by
  have h : (25 : ℚ) = 5 * 5 := by norm_num
  rw [h, Rat.sqrt_eq]; norm_num

theorem rat_sqrt_1 : Rat.sqrt 1 = 1 := by
  have h : (1 : ℚ) = 1 * 1 := by norm_num
  rw [h, Rat.sqrt_eq]; norm_num

theorem cosangle_3_4 : cosangle refEnv ⟨3, 4⟩ ⟨1, 0, 0⟩ = 3 / 5 := by
  simp [cosangle, Vector3d.Length, Vector3d.Normalize, Vector3d.dot, refEnv]
  norm_num [rat_sqrt_25, rat_sqrt_1]

/-- The test of line 399 does not depend on whether the element is a sketch
axis: the axis clause is implied by the first clause. -/
theorem axis_clause_absorbed (E : Env) (GeoId : Int) (c : ℚ) :
    (|c| < 0.995 ∨ ((GeoId = E.HAxis ∨ GeoId = E.VAxis) ∧ |c| < 0.1)) ↔ |c| < 0.995 := by
  constructor
  · rintro (h | ⟨_, h⟩)
    · exact h
    · exact lt_trans h (by norm_num)
  · exact Or.inl

/-- C4 (the code departs from it): with the x axis preselected, a CURVE target
and the drawing direction (3, 4), both directions are longer than 1e-8 and
`|cosangle|` is 3/5, not below 0.1, yet the Tangent suggestion on the axis is
added and returned. -/
theorem seekAutoConstraint_axis_oblique :
    Vector2d.Length refEnv ⟨3, 4⟩ > 1e-8 ∧ Vector3d.Length refEnv ⟨1, 0, 0⟩ > 1e-8
    ∧ ¬ |cosangle refEnv ⟨3, 4⟩ ⟨1, 0, 0⟩| < 0.1
    ∧ seekAutoConstraint refEnv (viewOf [] (-1) (-1) 1) [] ⟨0, 0⟩ ⟨3, 4⟩ TargetType.CURVE
      = some ([⟨ConstraintType.Tangent, refEnv.HAxis, PointPos.none⟩], 1) := by
  have habs : |(3 : ℚ) / 5| = 3 / 5 := abs_of_pos (by norm_num)
  have hl : Vector2d.Length refEnv ⟨3, 4⟩ = 5 := by
    simp [Vector2d.Length, refEnv]; norm_num [rat_sqrt_25]
  have hh : Vector3d.Length refEnv ⟨1, 0, 0⟩ = 1 := by
    simp [Vector3d.Length, refEnv, rat_sqrt_1]
  have e1 : refEnv.HAxis = -1 := rfl
  have e2 : refEnv.GeoUndef = -2000 := rfl
  refine ⟨by rw [hl]; norm_num, by rw [hh]; norm_num,
    by rw [cosangle_3_4, habs]; norm_num, ?_⟩
  simp only [seekAutoConstraint, getPreselection, preselectionBlock, preselectionConstraint,
      viewOf, sketchOf, clear, cosangle_3_4, hl, hh, habs]
  norm_num [e1, e2, hl, hh, cosangle_3_4, habs]
  simp

/-- C5: for a VERTEX target and a drawing direction of length at least 1e-8,
with `angle = |atan2(Dir.y, Dir.x)|`: the returned list has a Horizontal entry
exactly when `angle` is below 2 degrees or above 178 degrees, a Vertical entry
exactly when `angle` is less than 2 degrees away from 90 degrees, and never
both. -/
theorem seekAutoConstraint_horizontal_vertical (E : Env) (sketchgui : ViewProviderSketch)
    (prior : List AutoConstraint) (Pos Dir : Vector2d) (l : List AutoConstraint) (n : Int)
    (hauto : sketchgui.Autoconstraints = true)
    (hlen : 1e-8 ≤ Dir.Length E)
    (h : seekAutoConstraint E sketchgui prior Pos Dir TargetType.VERTEX = some (l, n)) :
    ((∃ c ∈ l, c.Type_ = ConstraintType.Horizontal)
        ↔ (|E.atan2 Dir.y Dir.x| < degrees 2 ∨ |E.atan2 Dir.y Dir.x| > degrees 178))
    ∧ ((∃ c ∈ l, c.Type_ = ConstraintType.Vertical)
        ↔ |(|E.atan2 Dir.y Dir.x|) - degrees 90| < degrees 2)
    ∧ ¬ ((∃ c ∈ l, c.Type_ = ConstraintType.Horizontal)
        ∧ (∃ c ∈ l, c.Type_ = ConstraintType.Vertical)) := by
  have hdev : degrees 2 = angleDevRad := by unfold degrees angleDevRad; ring
  have h90 : degrees 90 = M_PI_2 := by unfold degrees M_PI M_PI_2; norm_num
  have h178 : ∀ a : ℚ, a > degrees 178 ↔ M_PI - a < angleDevRad := by
    intro a
    unfold degrees angleDevRad
    constructor <;> intro ha <;> linarith
  rcases seekAutoConstraint_vertex_shape E sketchgui prior Pos Dir l n hlen h with
    ⟨hoff, _⟩ | ⟨l0, hl0, rfl⟩
  · rw [hauto] at hoff; cases hoff
  have hH : (∃ c ∈ l0 ++ (horizontalVerticalBlock E [] Dir ++ tangentBlock E sketchgui [] Pos Dir),
      c.Type_ = ConstraintType.Horizontal)
      ↔ ∃ c ∈ horizontalVerticalBlock E [] Dir, c.Type_ = ConstraintType.Horizontal := by
    constructor
    · rintro ⟨c, hc, ht⟩
      rcases List.mem_append.mp hc with hc | hc
      · rcases hl0 c hc with h1 | h1 <;> rw [h1] at ht <;> cases ht
      · rcases List.mem_append.mp hc with hc | hc
        · exact ⟨c, hc, ht⟩
        · rw [tangentBlock_types E sketchgui Pos Dir c hc] at ht; cases ht
    · rintro ⟨c, hc, ht⟩
      exact ⟨c, List.mem_append_right _ (List.mem_append_left _ hc), ht⟩
  have hV : (∃ c ∈ l0 ++ (horizontalVerticalBlock E [] Dir ++ tangentBlock E sketchgui [] Pos Dir),
      c.Type_ = ConstraintType.Vertical)
      ↔ ∃ c ∈ horizontalVerticalBlock E [] Dir, c.Type_ = ConstraintType.Vertical := by
    constructor
    · rintro ⟨c, hc, ht⟩
      rcases List.mem_append.mp hc with hc | hc
      · rcases hl0 c hc with h1 | h1 <;> rw [h1] at ht <;> cases ht
      · rcases List.mem_append.mp hc with hc | hc
        · exact ⟨c, hc, ht⟩
        · rw [tangentBlock_types E sketchgui Pos Dir c hc] at ht; cases ht
    · rintro ⟨c, hc, ht⟩
      exact ⟨c, List.mem_append_right _ (List.mem_append_left _ hc), ht⟩
  rw [hH, hV, horizontalVerticalBlock_horizontal, horizontalVerticalBlock_vertical, hdev, h90,
    h178]
  refine ⟨Iff.rfl, Iff.rfl, ?_⟩
  rintro ⟨hh, hv⟩
  exact vertical_not_horizontal _ hv hh

theorem rat_sqrt_2 : Rat.sqrt 2 = 1 := by
  have h : Nat.sqrt 2 = 1 := (Nat.eq_sqrt.mpr ⟨by norm_num, by norm_num⟩).symm
  have h1 : Nat.sqrt 1 = 1 := (Nat.eq_sqrt.mpr ⟨by norm_num, by norm_num⟩).symm
  simp [Rat.sqrt, Int.sqrt, h, h1]

theorem atan2_refEnv_0_1 : refEnv.atan2 0 1 = 0 := by
  show atan2Approx 0 1 = 0
  norm_num [atan2Approx, atanApprox]

theorem atan2_refEnv_m1_0 : refEnv.atan2 (-1) 0 = -M_PI_2 := by
  show atan2Approx (-1) 0 = -M_PI_2
  norm_num [atan2Approx, atanApprox]

theorem atan2_refEnv_1_1 : refEnv.atan2 1 1 = M_PI / 4 := by
  show atan2Approx 1 1 = M_PI / 4
  norm_num [atan2Approx, atanApprox]

/-- Direction (1, 0), nothing preselected, empty sketch: Horizontal. -/
theorem seek_dir_1_0 :
    seekAutoConstraint refEnv (viewOf [] (-1) (-1) (-1)) [] ⟨0, 0⟩ ⟨1, 0⟩ TargetType.VERTEX
      = some ([⟨ConstraintType.Horizontal, -2000, PointPos.none⟩], 1) := by
  have hl : Vector2d.Length refEnv ⟨1, 0⟩ = 1 := by
    simp [Vector2d.Length, refEnv, rat_sqrt_1]
  have e2 : refEnv.GeoUndef = -2000 := rfl
  simp only [seekAutoConstraint, getPreselection, preselectionBlock, horizontalVerticalBlock,
    tangentBlock, viewOf, sketchOf, clear, hl, atan2_refEnv_0_1, e2, List.foldl]
  norm_num [angleDevRad, M_PI, M_PI_2]
  simp

/-- Direction (0, -1), nothing preselected, empty sketch: Vertical. -/
theorem seek_dir_0_m1 :
    seekAutoConstraint refEnv (viewOf [] (-1) (-1) (-1)) [] ⟨0, 0⟩ ⟨0, -1⟩ TargetType.VERTEX
      = some ([⟨ConstraintType.Vertical, -2000, PointPos.none⟩], 1) := by
  have hl : Vector2d.Length refEnv ⟨0, -1⟩ = 1 := by
    simp [Vector2d.Length, refEnv, rat_sqrt_1]
  have e2 : refEnv.GeoUndef = -2000 := rfl
  have ha : |(-M_PI_2)| = M_PI_2 := by rw [abs_neg]; exact abs_of_pos (by norm_num [M_PI_2])
  simp only [seekAutoConstraint, getPreselection, preselectionBlock, horizontalVerticalBlock,
    tangentBlock, viewOf, sketchOf, clear, hl, atan2_refEnv_m1_0, e2, List.foldl, ha]
  norm_num [angleDevRad, M_PI, M_PI_2]
  simp

/-- Direction (1, 1), nothing preselected, empty sketch: no suggestion. -/
theorem seek_dir_1_1 :
    seekAutoConstraint refEnv (viewOf [] (-1) (-1) (-1)) [] ⟨0, 0⟩ ⟨1, 1⟩ TargetType.VERTEX
      = some ([], 0) := by
  have hl : Vector2d.Length refEnv ⟨1, 1⟩ = 1 := by
    simp [Vector2d.Length, refEnv]; norm_num [rat_sqrt_2]
  have e2 : refEnv.GeoUndef = -2000 := rfl
  have ha : |M_PI / 4| = M_PI / 4 := abs_of_pos (by norm_num [M_PI])
  have hb : |M_PI / 4 - M_PI_2| = M_PI / 4 := by
    have : M_PI / 4 - M_PI_2 = -(M_PI / 4) := by norm_num [M_PI, M_PI_2]
    rw [this, abs_neg, ha]
  simp only [seekAutoConstraint, getPreselection, preselectionBlock, horizontalVerticalBlock,
    tangentBlock, viewOf, sketchOf, clear, hl, atan2_refEnv_1_1, e2, List.foldl, ha, hb]
  norm_num [angleDevRad, M_PI, M_PI_2]

/-- C5 at the three directions the claim names, with nothing preselected and an
empty sketch: (1, 0) is inside the horizontal band, (0, -1) inside the vertical
band, and (1, 1) inside neither. -/
theorem seekAutoConstraint_horizontal_vertical_witness :
    (|refEnv.atan2 0 1| < degrees 2 ∨ |refEnv.atan2 0 1| > degrees 178)
    ∧ |(|refEnv.atan2 (-1) 0|) - degrees 90| < degrees 2
    ∧ ¬ (|refEnv.atan2 1 1| < degrees 2 ∨ |refEnv.atan2 1 1| > degrees 178)
    ∧ ¬ |(|refEnv.atan2 1 1|) - degrees 90| < degrees 2 := by
  have hl1 : (1e-8 : ℚ) ≤ Vector2d.Length refEnv ⟨1, 0⟩ := by
    simp [Vector2d.Length, refEnv, rat_sqrt_1]; norm_num
  have hl2 : (1e-8 : ℚ) ≤ Vector2d.Length refEnv ⟨0, -1⟩ := by
    simp [Vector2d.Length, refEnv, rat_sqrt_1]; norm_num
  have hl3 : (1e-8 : ℚ) ≤ Vector2d.Length refEnv ⟨1, 1⟩ := by
    simp [Vector2d.Length, refEnv]; norm_num [rat_sqrt_2]
  have t1 := seekAutoConstraint_horizontal_vertical refEnv (viewOf [] (-1) (-1) (-1)) []
    ⟨0, 0⟩ ⟨1, 0⟩ _ _ rfl hl1 seek_dir_1_0
  have t2 := seekAutoConstraint_horizontal_vertical refEnv (viewOf [] (-1) (-1) (-1)) []
    ⟨0, 0⟩ ⟨0, -1⟩ _ _ rfl hl2 seek_dir_0_m1
  have t3 := seekAutoConstraint_horizontal_vertical refEnv (viewOf [] (-1) (-1) (-1)) []
    ⟨0, 0⟩ ⟨1, 1⟩ _ _ rfl hl3 seek_dir_1_1
  refine ⟨t1.1.mp ⟨_, List.mem_singleton.mpr rfl, rfl⟩,
    t2.2.1.mp ⟨_, List.mem_singleton.mpr rfl, rfl⟩, ?_, ?_⟩
  · intro hh
    obtain ⟨c, hc, _⟩ := t3.1.mpr hh
    simp at hc
  · intro hv
    obtain ⟨c, hc, _⟩ := t3.2.1.mpr hv
    simp at hc

/-! ### The geometry search over circles -/

theorem circleCandidate_some_iff (E : Env) (Pos Dir : Vector2d) (limit d : ℚ) (g : Geometry) :
    circleCandidate E Pos Dir limit g = some d ↔
      ∃ c r, g = Geometry.GeomCircle c r ∧ ¬ noTouch Pos Dir c
        ∧ d = |(projPnt Pos Dir c).Length E - r| ∧ d < limit := by
  constructor
  · intro h
    cases g with
    | GeomCircle c r =>
      simp only [circleCandidate] at h
      split_ifs at h with ht hd
      cases h
      exact ⟨c, r, rfl, ht, rfl, hd⟩
    | _ => simp [circleCandidate] at h
  · rintro ⟨c, r, rfl, ht, rfl, hd⟩
    simp [circleCandidate, ht, hd]

/-- On a geometry that is a circle or inert, one step of the loop is decided by
the candidate test against the current threshold. -/
theorem tangentStep_circlesOnly (E : Env) (Pos Dir : Vector2d) (st : TangState) (g : Geometry)
    (hg : circlesOnly g) :
    tangentStep E Pos Dir st g =
      match circleCandidate E Pos Dir st.tangDeviation g with
      | some d => ⟨st.i + 1, st.i, d⟩
      | Option.none => ⟨st.i + 1, st.tangId, st.tangDeviation⟩ := by
  cases g <;> simp [circlesOnly] at hg <;> simp [tangentStep, circleCandidate]
  rename_i c r
  by_cases ht : noTouch Pos Dir c
  · simp [ht]
  · by_cases hd : |(projPnt Pos Dir c).Length E - r| < st.tangDeviation <;> simp [ht, hd]

/-- The state after the loop over a list of circles and inert geometries:
either nothing qualified and the state is the initial one, or the candidate is
the first circle of least deviation among those that qualify under the initial
limit `L`. -/
theorem foldl_tangentStep_circles (E : Env) (Pos Dir : Vector2d) (U : Int) (L : ℚ)
    (geo : List Geometry) (hgeo : ∀ g ∈ geo, circlesOnly g) :
    (geo.foldl (tangentStep E Pos Dir) ⟨0, U, L⟩).i = geo.length ∧
    (((geo.foldl (tangentStep E Pos Dir) ⟨0, U, L⟩).tangId = U
        ∧ (geo.foldl (tangentStep E Pos Dir) ⟨0, U, L⟩).tangDeviation = L
        ∧ ∀ g ∈ geo, circleCandidate E Pos Dir L g = Option.none)
      ∨ ∃ a gk b, geo = a ++ gk :: b
        ∧ (geo.foldl (tangentStep E Pos Dir) ⟨0, U, L⟩).tangId = a.length
        ∧ circleCandidate E Pos Dir L gk
            = some (geo.foldl (tangentStep E Pos Dir) ⟨0, U, L⟩).tangDeviation
        ∧ (∀ g ∈ a, ∀ d, circleCandidate E Pos Dir L g = some d →
            (geo.foldl (tangentStep E Pos Dir) ⟨0, U, L⟩).tangDeviation < d)
        ∧ (∀ g ∈ b, ∀ d, circleCandidate E Pos Dir L g = some d →
            (geo.foldl (tangentStep E Pos Dir) ⟨0, U, L⟩).tangDeviation ≤ d)) := by
  induction geo using List.reverseRecOn with
  | nil => simp
  | append_singleton pre g ih =>
    have hpre : ∀ g ∈ pre, circlesOnly g := fun x hx => hgeo x (List.mem_append_left _ hx)
    have hg : circlesOnly g := hgeo g (by simp)
    obtain ⟨hi, hinv⟩ := ih hpre
    rw [List.foldl_append, List.foldl_cons, List.foldl_nil]
    generalize List.foldl (tangentStep E Pos Dir) ⟨0, U, L⟩ pre = st at hi hinv
    rw [tangentStep_circlesOnly E Pos Dir st g hg]
    have hle : st.tangDeviation ≤ L := by
      rcases hinv with ⟨_, h2, _⟩ | ⟨a, gk, b, _, _, h3, _⟩
      · exact le_of_eq h2
      · obtain ⟨_, _, _, _, _, hlt⟩ := (circleCandidate_some_iff E Pos Dir L _ gk).mp h3
        exact le_of_lt hlt
    cases hc : circleCandidate E Pos Dir st.tangDeviation g with
    | none =>
      have hge : ∀ d, circleCandidate E Pos Dir L g = some d → st.tangDeviation ≤ d := by
        intro d hd
        obtain ⟨c, r, hgc, ht, hdv, _⟩ := (circleCandidate_some_iff E Pos Dir L d g).mp hd
        by_contra hlt
        have := (circleCandidate_some_iff E Pos Dir st.tangDeviation d g).mpr
          ⟨c, r, hgc, ht, hdv, not_le.mp hlt⟩
        rw [hc] at this
        cases this
      refine ⟨by simp [hi], ?_⟩
      rcases hinv with ⟨h1, h2, h3⟩ | ⟨a, gk, b, h1, h2, h3, h4, h5⟩
      · left
        refine ⟨h1, h2, ?_⟩
        intro x hx
        rcases List.mem_append.mp hx with hx | hx
        · exact h3 x hx
        · simp at hx
          subst hx
          cases hcl : circleCandidate E Pos Dir L x with
          | none => rfl
          | some d =>
            have h6 := hge d hcl
            obtain ⟨_, _, _, _, _, hlt⟩ := (circleCandidate_some_iff E Pos Dir L d x).mp hcl
            rw [h2] at h6
            exact absurd hlt (not_lt.mpr h6)
      · right
        refine ⟨a, gk, b ++ [g], by simp [h1], h2, h3, h4, ?_⟩
        intro x hx d hd
        rcases List.mem_append.mp hx with hx | hx
        · exact h5 x hx d hd
        · simp at hx
          subst hx
          exact hge d hd
    | some d =>
      obtain ⟨c, r, hgc, ht, hdv, hlt⟩ :=
        (circleCandidate_some_iff E Pos Dir st.tangDeviation d g).mp hc
      have hcl : circleCandidate E Pos Dir L g = some d :=
        (circleCandidate_some_iff E Pos Dir L d g).mpr
          ⟨c, r, hgc, ht, hdv, lt_of_lt_of_le hlt hle⟩
      refine ⟨by simp [hi], Or.inr ⟨pre, g, [], by simp, by simp [hi], hcl, ?_, by simp⟩⟩
      intro x hx d' hd'
      show d < d'
      rcases hinv with ⟨_, _, h3⟩ | ⟨a, gk, b, h1, _, h3, h4, h5⟩
      · rw [h3 x hx] at hd'
        cases hd'
      · rw [h1] at hx
        rcases List.mem_append.mp hx with hx | hx
        · exact lt_trans hlt (h4 x hx d' hd')
        · rcases List.mem_cons.mp hx with hx | hx
          · subst hx
            rw [h3] at hd'
            cases hd'
            exact hlt
          · exact lt_of_lt_of_le hlt (h5 x hx d' hd')

theorem tangentBlock_nil_eq (E : Env) (sketchgui : ViewProviderSketch) (Pos Dir : Vector2d) :
    tangentBlock E sketchgui [] Pos Dir =
      if (sketchgui.getSketchObject.getCompleteGeometry.foldl (tangentStep E Pos Dir)
          ⟨0, E.GeoUndef, 0.1 * sketchgui.getScaleFactor⟩).tangId ≠ E.GeoUndef then
        [⟨ConstraintType.Tangent, indexToGeoId sketchgui
          (sketchgui.getSketchObject.getCompleteGeometry.foldl (tangentStep E Pos Dir)
            ⟨0, E.GeoUndef, 0.1 * sketchgui.getScaleFactor⟩).tangId, PointPos.none⟩]
      else [] := by
  simp only [tangentBlock, indexToGeoId, List.nil_append]

/-- C6: in a sketch whose geometry list holds only circles and geometries the
search ignores, for a VERTEX target and a direction of length at least 1e-8:
if no circle passes the touch test with a deviation below 0.1 x scale factor,
the returned list has no Tangent entry; otherwise its only Tangent entry
targets the first circle of least deviation among those that do (every
qualifying circle before it deviates strictly more, every one after it at
least as much). -/
theorem seekAutoConstraint_circle_search (E : Env) (sketchgui : ViewProviderSketch)
    (prior : List AutoConstraint) (Pos Dir : Vector2d) (l : List AutoConstraint) (n : Int)
    (hauto : sketchgui.Autoconstraints = true)
    (hlen : 1e-8 ≤ Dir.Length E)
    (hundef : E.GeoUndef < 0)
    (hgeo : ∀ g ∈ sketchgui.getSketchObject.getCompleteGeometry, circlesOnly g)
    (h : seekAutoConstraint E sketchgui prior Pos Dir TargetType.VERTEX = some (l, n)) :
    ((∀ g ∈ sketchgui.getSketchObject.getCompleteGeometry,
        circleCandidate E Pos Dir (0.1 * sketchgui.getScaleFactor) g = Option.none) →
      ∀ c ∈ l, c.Type_ ≠ ConstraintType.Tangent)
    ∧ ((∃ g ∈ sketchgui.getSketchObject.getCompleteGeometry, ∃ d,
        circleCandidate E Pos Dir (0.1 * sketchgui.getScaleFactor) g = some d) →
      ∃ a center radius b d,
        sketchgui.getSketchObject.getCompleteGeometry
          = a ++ Geometry.GeomCircle center radius :: b
        ∧ circleCandidate E Pos Dir (0.1 * sketchgui.getScaleFactor)
            (Geometry.GeomCircle center radius) = some d
        ∧ (∀ g ∈ a, ∀ d', circleCandidate E Pos Dir (0.1 * sketchgui.getScaleFactor) g
            = some d' → d < d')
        ∧ (∀ g ∈ b, ∀ d', circleCandidate E Pos Dir (0.1 * sketchgui.getScaleFactor) g
            = some d' → d ≤ d')
        ∧ (∀ c ∈ l, c.Type_ = ConstraintType.Tangent →
            c = ⟨ConstraintType.Tangent, indexToGeoId sketchgui a.length, PointPos.none⟩)
        ∧ (⟨ConstraintType.Tangent, indexToGeoId sketchgui a.length, PointPos.none⟩
            : AutoConstraint) ∈ l) := by
  rcases seekAutoConstraint_vertex_shape E sketchgui prior Pos Dir l n hlen h with
    ⟨hoff, _⟩ | ⟨l0, hl0, rfl⟩
  · rw [hauto] at hoff; cases hoff
  have htan : ∀ c ∈ l0 ++ (horizontalVerticalBlock E [] Dir
      ++ tangentBlock E sketchgui [] Pos Dir), c.Type_ = ConstraintType.Tangent →
      c ∈ tangentBlock E sketchgui [] Pos Dir := by
    intro c hc ht
    rcases List.mem_append.mp hc with hc | hc
    · rcases hl0 c hc with h1 | h1 <;> rw [h1] at ht <;> cases ht
    · rcases List.mem_append.mp hc with hc | hc
      · rcases horizontalVerticalBlock_types E Dir c hc with h1 | h1 <;> rw [h1] at ht <;>
          cases ht
      · exact hc
  obtain ⟨_, hinv⟩ := foldl_tangentStep_circles E Pos Dir E.GeoUndef
    (0.1 * sketchgui.getScaleFactor) _ hgeo
  rw [tangentBlock_nil_eq] at htan ⊢
  generalize List.foldl (tangentStep E Pos Dir) ⟨0, E.GeoUndef, 0.1 * sketchgui.getScaleFactor⟩
    sketchgui.getSketchObject.getCompleteGeometry = st at hinv htan ⊢
  constructor
  · intro hnone c hc ht
    have hmem := htan c hc ht
    rcases hinv with ⟨h1, _, _⟩ | ⟨a, gk, b, h1, _, h3, _, _⟩
    · simp [h1] at hmem
    · rw [hnone gk (by rw [h1]; simp)] at h3
      cases h3
  · rintro ⟨g, hg, d, hd⟩
    rcases hinv with ⟨_, _, h3⟩ | ⟨a, gk, b, h1, h2, h3, h4, h5⟩
    · rw [h3 g hg] at hd
      cases hd
    · obtain ⟨center, radius, rfl, _, _, _⟩ :=
        (circleCandidate_some_iff E Pos Dir _ _ gk).mp h3
      have hne : st.tangId ≠ E.GeoUndef := by
        rw [h2]
        have : (0 : Int) ≤ (a.length : Int) := Int.natCast_nonneg _
        omega
      simp only [hne, ne_eq, not_false_eq_true, if_true] at htan ⊢
      refine ⟨a, center, radius, b, st.tangDeviation, h1, h3, h4, h5, ?_, ?_⟩
      · intro c hc ht
        have := htan c hc ht
        simpa [h2] using this
      · rw [h2]
        simp

theorem refEnv_sqrt : refEnv.sqrt = Rat.sqrt := rfl

theorem refEnv_GeoUndef : refEnv.GeoUndef = -2000 := rfl

theorem three_circles_projPnt :
    projPnt ⟨2, 0⟩ ⟨1, 0⟩ ⟨3 / 2, 1, 0⟩ = ⟨0, -1, 0⟩ := by
  simp [projPnt, Vector3d.ProjectToLine, Vector3d.sub, Vector3d.smul, Vector3d.dot,
    Vector3d.Sqr]

theorem three_circles_touch : ¬ noTouch ⟨2, 0⟩ ⟨1, 0⟩ ⟨3 / 2, 1, 0⟩ := by
  simp [noTouch, Vector3d.dot, Vector3d.sub]
  norm_num

theorem three_circles_first :
    circleCandidate refEnv ⟨2, 0⟩ ⟨1, 0⟩ (0.1 * threeCircles.getScaleFactor)
      (Geometry.GeomCircle ⟨3 / 2, 1, 0⟩ (19 / 20)) = some (1 / 20) := by
  have hpl : Vector3d.Length refEnv ⟨0, -1, 0⟩ = 1 := by
    simp [Vector3d.Length, refEnv, rat_sqrt_1]
  have ha : |(1 : ℚ) - 19 / 20| = 1 / 20 := by
    rw [abs_of_pos] <;> norm_num
  simp only [circleCandidate, three_circles_touch, three_circles_projPnt, hpl, ha, threeCircles,
    viewOf]
  norm_num

/-- A run of the search on `threeCircles`, a line drawn from (1, 0) to the
cursor at (2, 0): the second circle is suggested. -/
theorem seek_three_circles :
    seekAutoConstraint refEnv threeCircles [] ⟨2, 0⟩ ⟨1, 0⟩ TargetType.VERTEX
      = some ([⟨ConstraintType.Horizontal, -2000, PointPos.none⟩,
          ⟨ConstraintType.Tangent, 1, PointPos.none⟩], 2) := by
  have hl : Vector2d.Length refEnv ⟨1, 0⟩ = 1 := by
    simp [Vector2d.Length, refEnv, rat_sqrt_1]
  have hp := three_circles_projPnt
  have hpl : Vector3d.Length refEnv ⟨0, -1, 0⟩ = 1 := by
    simp [Vector3d.Length, refEnv, rat_sqrt_1]
  have hnt := three_circles_touch
  have ha : |(1 : ℚ) - 19 / 20| = 1 / 20 := by
    rw [abs_of_pos] <;> norm_num
  simp only [seekAutoConstraint, getPreselection, preselectionBlock, horizontalVerticalBlock,
    tangentBlock, threeCircles, viewOf, sketchOf, clear, hl, atan2_refEnv_0_1, refEnv_GeoUndef,
    List.foldl, tangentStep, hp, hpl, hnt, ha]
  norm_num [angleDevRad, M_PI, M_PI_2]
  simp

/-- C6 at an input: on `threeCircles` the first circle qualifies with deviation
1/20 and the other two with deviation 0; the Tangent entry of the returned list
targets the first circle of least deviation. -/
theorem seekAutoConstraint_circle_search_witness :
    ∃ a center radius b d,
      threeCircles.getSketchObject.getCompleteGeometry
        = a ++ Geometry.GeomCircle center radius :: b
      ∧ circleCandidate refEnv ⟨2, 0⟩ ⟨1, 0⟩ (0.1 * threeCircles.getScaleFactor)
          (Geometry.GeomCircle center radius) = some d
      ∧ (∀ g ∈ a, ∀ d', circleCandidate refEnv ⟨2, 0⟩ ⟨1, 0⟩
          (0.1 * threeCircles.getScaleFactor) g = some d' → d < d')
      ∧ (∀ g ∈ b, ∀ d', circleCandidate refEnv ⟨2, 0⟩ ⟨1, 0⟩
          (0.1 * threeCircles.getScaleFactor) g = some d' → d ≤ d')
      ∧ (∀ c ∈ [(⟨ConstraintType.Horizontal, -2000, PointPos.none⟩ : AutoConstraint),
            ⟨ConstraintType.Tangent, 1, PointPos.none⟩],
          c.Type_ = ConstraintType.Tangent →
          c = ⟨ConstraintType.Tangent, indexToGeoId threeCircles a.length, PointPos.none⟩)
      ∧ (⟨ConstraintType.Tangent, indexToGeoId threeCircles a.length, PointPos.none⟩
          : AutoConstraint) ∈
        [(⟨ConstraintType.Horizontal, -2000, PointPos.none⟩ : AutoConstraint),
          ⟨ConstraintType.Tangent, 1, PointPos.none⟩] :=
  (seekAutoConstraint_circle_search refEnv threeCircles [] ⟨2, 0⟩ ⟨1, 0⟩ _ _ rfl
    (by simp [Vector2d.Length, refEnv, rat_sqrt_1]; norm_num) (by decide)
    (by simp [threeCircles, viewOf, sketchOf, circlesOnly]) seek_three_circles).2
    ⟨_, by simp [threeCircles, viewOf, sketchOf], _, three_circles_first⟩

/-! ### The geometry search over arcs of ellipse -/

/-- The loop treats an arc of ellipse exactly like the full ellipse: after the
first test of line 553 has lowered the threshold to `error`, the second test
`error < tangDeviation` of line 558 is false, so the angular range is never
consulted. -/
theorem tangentStep_arcOfEllipse (E : Env) (Pos Dir : Vector2d) (st : TangState)
    (center : Vector3d) (a b : ℚ) (majdir : Vector3d) (startAngle endAngle : ℚ) :
    tangentStep E Pos Dir st (Geometry.GeomArcOfEllipse center a b majdir startAngle endAngle)
      = tangentStep E Pos Dir st (Geometry.GeomEllipse center a b majdir) := by
  simp only [tangentStep]
  by_cases h : ellipseError E Pos Dir center a b majdir < st.tangDeviation
  · simp [h]
  · simp [h]

theorem rat_sqrt_16 : Rat.sqrt 16 = 4 := by
  have h : (16 : ℚ) = 4 * 4 := by norm_num
  rw [h, Rat.sqrt_eq]; norm_num

theorem rat_sqrt_100 : Rat.sqrt 100 = 10 := by
  have h : (100 : ℚ) = 10 * 10 := by norm_num
  rw [h, Rat.sqrt_eq]; norm_num

theorem arcSketch_error :
    ellipseError refEnv ⟨0, 3⟩ ⟨1, 0⟩ ⟨0, 0, 0⟩ 5 3 ⟨1, 0, 0⟩ = 0 := by
  have h1 : Vector3d.Normalize refEnv ⟨0, -1, 0⟩ = ⟨0, -1, 0⟩ := by
    simp [Vector3d.Normalize, Vector3d.Length, refEnv, rat_sqrt_1]
  have h16 : refEnv.sqrt (5 * 5 - 3 * 3) = 4 := by
    rw [refEnv_sqrt]; norm_num [rat_sqrt_16]
  simp only [ellipseError, h16, h1]
  simp [Vector3d.add, Vector3d.sub, Vector3d.smul, Vector3d.dot, Vector3d.Length, refEnv]
  norm_num [rat_sqrt_100]

theorem arcSketch_angle :
    arcOfEllipseAngle refEnv ⟨0, 3⟩ ⟨0, 0, 0⟩ 5 3 ⟨1, 0, 0⟩ 0 = M_PI_2 := by
  have hat : refEnv.atan2 15 0 = M_PI_2 := by
    show atan2Approx 15 0 = M_PI_2
    norm_num [atan2Approx, atanApprox]
  have hfl : ⌊M_PI_2 / (2 * M_PI)⌋ = 0 := by
    rw [Int.floor_eq_iff]
    norm_num [M_PI, M_PI_2]
  have hfm : refEnv.fmod M_PI_2 (2 * M_PI) = M_PI_2 := by
    show M_PI_2 - 2 * M_PI * ⌊M_PI_2 / (2 * M_PI)⌋ = M_PI_2
    rw [hfl]; simp
  simp only [arcOfEllipseAngle]
  norm_num [hat, hfm]
  rw [bringToRange]
  norm_num [M_PI_2]

/-- C7 (the code departs from it): on `arcSketch`, with the cursor at (0, 3) and
the direction (1, 0), the cursor's angle on the ellipse brought into range is
`M_PI_2`, greater than the arc's end angle `M_PI / 4`, yet the arc of ellipse
(geometry 0) is returned as the Tangent suggestion. -/
theorem seekAutoConstraint_arcOfEllipse_outside :
    ¬ (arcOfEllipseAngle refEnv ⟨0, 3⟩ ⟨0, 0, 0⟩ 5 3 ⟨1, 0, 0⟩ 0 ≤ M_PI / 4)
    ∧ seekAutoConstraint refEnv arcSketch [] ⟨0, 3⟩ ⟨1, 0⟩ TargetType.VERTEX
      = some ([⟨ConstraintType.Horizontal, -2000, PointPos.none⟩,
          ⟨ConstraintType.Tangent, 0, PointPos.none⟩], 2) := by
  constructor
  · rw [arcSketch_angle]
    norm_num [M_PI, M_PI_2]
  · have hl : Vector2d.Length refEnv ⟨1, 0⟩ = 1 := by
      simp [Vector2d.Length, refEnv, rat_sqrt_1]
    simp only [seekAutoConstraint, getPreselection, preselectionBlock, horizontalVerticalBlock,
      tangentBlock, arcSketch, viewOf, sketchOf, clear, hl, atan2_refEnv_0_1, refEnv_GeoUndef,
      List.foldl, tangentStep_arcOfEllipse, tangentStep, arcSketch_error]
    norm_num [angleDevRad, M_PI, M_PI_2]
    simp

/-! ## Properties of `createAutoConstraints` -/

/-- C8: `createAutoConstraints` makes no call at all (opens no command, commits
none, adds no constraint) when the `Autoconstraints` property is false or the
list of auto constraints is empty, for every `geoId1`, `posId1` and
`createowncommand`. -/
theorem createAutoConstraints_nothing (sketchgui : ViewProviderSketch)
    (autoConstrs : List AutoConstraint) (geoId1 : Int) (posId1 : PointPos)
    (createowncommand : Bool)
    (h : sketchgui.Autoconstraints = false ∨ autoConstrs = []) :
    createAutoConstraints sketchgui autoConstrs geoId1 posId1 createowncommand = [] := by
  rcases h with h | h
  · simp [createAutoConstraints, h]
  · simp [createAutoConstraints, h]

/-- C8 at two inputs: the property off with a non-empty list, and the property
on with an empty list. -/
theorem createAutoConstraints_nothing_witness :
    createAutoConstraints { viewOf [] (-1) (-1) (-1) with Autoconstraints := false }
        [⟨ConstraintType.Horizontal, -2000, PointPos.none⟩] 3 PointPos.start true = []
    ∧ createAutoConstraints (viewOf [] (-1) (-1) (-1)) [] 3 PointPos.start true = [] :=
  ⟨createAutoConstraints_nothing _ _ 3 PointPos.start true (Or.inl rfl),
    createAutoConstraints_nothing _ _ 3 PointPos.start true (Or.inr rfl)⟩

/-- The loop never opens a command. -/
theorem createLoop_countOpen (sketchgui : ViewProviderSketch) (createowncommand : Bool)
    (autoConstrs : List AutoConstraint) (st : CreateState) :
    countOpen (createLoop sketchgui createowncommand st autoConstrs).events
      = countOpen st.events := by
  induction autoConstrs generalizing st with
  | nil => rfl
  | cons it rest ih =>
    have hsw : countOpen (switchCase sketchgui st it).1.events = countOpen st.events := by
      unfold switchCase
      cases it.Type_ <;> simp only []
      · split_ifs <;> simp [countOpen]
      · simp [countOpen]
      · simp [countOpen]
      · simp only [tangentCase]
        split_ifs <;> simp [countOpen]
      · split_ifs <;> simp [countOpen]
    simp only [createLoop]
    rcases hs : switchCase sketchgui st it with ⟨st1, fl⟩
    rw [hs] at hsw
    cases fl
    · simp only []
      rw [ih]
      cases createowncommand <;> simp [countOpen] at hsw ⊢ <;> exact hsw
    · simp only []
      rw [ih]
      exact hsw
    · simp only []
      exact hsw

/-- With `createowncommand` true and a non-empty list, exactly one command is
opened; with `createowncommand` false, none. -/
theorem createAutoConstraints_countOpen (sketchgui : ViewProviderSketch)
    (autoConstrs : List AutoConstraint) (geoId1 : Int) (posId1 : PointPos)
    (createowncommand : Bool) (hauto : sketchgui.Autoconstraints = true)
    (hne : autoConstrs ≠ []) :
    countOpen (createAutoConstraints sketchgui autoConstrs geoId1 posId1 createowncommand)
      = if createowncommand then 1 else 0 := by
  have hlen : autoConstrs.length > 0 := List.length_pos.mpr hne
  simp only [createAutoConstraints, hauto, hlen]
  simp only [Bool.true_eq_false, if_false, if_true]
  rw [createLoop_countOpen]
  cases createowncommand <;> simp [countOpen]

/-- C9 (the code departs from it): with `createowncommand` true, the list
[Coincident, Horizontal] applied to a point opens one command and commits two;
the list [Coincident] applied to an edge (`posId1` none) opens one command and
commits none. -/
theorem createAutoConstraints_commits :
    createAutoConstraints (viewOf [] (-1) (-1) (-1))
        [⟨ConstraintType.Coincident, 5, PointPos.start⟩,
          ⟨ConstraintType.Horizontal, -2000, PointPos.none⟩] 3 PointPos.end_ true
      = [Event.openCommand "Add auto constraints",
          Event.addCoincident 3 PointPos.end_ 5 PointPos.start, Event.commitCommand,
          Event.addHorizontal 3, Event.commitCommand]
    ∧ countCommit (createAutoConstraints (viewOf [] (-1) (-1) (-1))
        [⟨ConstraintType.Coincident, 5, PointPos.start⟩,
          ⟨ConstraintType.Horizontal, -2000, PointPos.none⟩] 3 PointPos.end_ true) = 2
    ∧ createAutoConstraints (viewOf [] (-1) (-1) (-1))
        [⟨ConstraintType.Coincident, 5, PointPos.start⟩] 3 PointPos.none true
      = [Event.openCommand "Add auto constraints"]
    ∧ countCommit (createAutoConstraints (viewOf [] (-1) (-1) (-1))
        [⟨ConstraintType.Coincident, 5, PointPos.start⟩] 3 PointPos.none true) = 0 := by
  refine ⟨?_, ?_, ?_, ?_⟩ <;>
    simp [createAutoConstraints, createLoop, switchCase, viewOf, countCommit]

/-- C10 (the code departs from it): applied to the edge 3 (`posId1` none), the
list [PointOnObject on point (7, start), Horizontal] yields Horizontal on
geometry 7, not on geometry 3: the swap made for the first suggestion stays in
`geoId1` for the second. -/
theorem createAutoConstraints_swap_leaks :
    createAutoConstraints (viewOf [] (-1) (-1) (-1))
        [⟨ConstraintType.PointOnObject, 7, PointPos.start⟩,
          ⟨ConstraintType.Horizontal, -2000, PointPos.none⟩] 3 PointPos.none false
      = [Event.addPointOnObject 7 PointPos.start 3, Event.addHorizontal 7] := by
  simp [createAutoConstraints, createLoop, switchCase, viewOf]

/-- The loop only adds to the record of calls. -/
theorem createLoop_events_prefix (sketchgui : ViewProviderSketch) (createowncommand : Bool)
    (autoConstrs : List AutoConstraint) (st : CreateState) :
    ∃ tail, (createLoop sketchgui createowncommand st autoConstrs).events
      = st.events ++ tail := by
  induction autoConstrs generalizing st with
  | nil => exact ⟨[], by simp [createLoop]⟩
  | cons it rest ih =>
    have hsw : ∃ t, (switchCase sketchgui st it).1.events = st.events ++ t := by
      unfold switchCase
      cases it.Type_ <;> simp only []
      · exact ⟨[], by simp⟩
      · split_ifs
        · exact ⟨[], by simp⟩
        · exact ⟨_, rfl⟩
      · exact ⟨_, rfl⟩
      · exact ⟨_, rfl⟩
      · exact ⟨[], by simp⟩
      · simp only [tangentCase]
        split_ifs <;> exact ⟨_, rfl⟩
      · exact ⟨[], by simp⟩
      · exact ⟨[], by simp⟩
      · exact ⟨[], by simp⟩
      · split_ifs <;> exact ⟨_, rfl⟩
      · exact ⟨[], by simp⟩
    simp only [createLoop]
    rcases hs : switchCase sketchgui st it with ⟨st1, fl⟩
    rw [hs] at hsw
    obtain ⟨t, ht⟩ := hsw
    simp only [] at ht
    cases fl
    · simp only []
      cases createowncommand
      · obtain ⟨t2, ht2⟩ := ih st1
        exact ⟨t ++ t2, by simp [ht2, ht]⟩
      · obtain ⟨t2, ht2⟩ := ih { st1 with events := st1.events ++ [Event.commitCommand] }
        refine ⟨t ++ [Event.commitCommand] ++ t2, ?_⟩
        simp only [Bool.true_eq_false, if_false, if_true] at ht2 ⊢
        rw [ht2, ht]
        simp
    · simp only []
      obtain ⟨t2, ht2⟩ := ih st1
      exact ⟨t ++ t2, by simp [ht2, ht]⟩
    · simp only []
      exact ⟨t, ht⟩

/-- When `geoId1` is a line segment and the suggestion an ellipse, the Tangent
case swaps the ids and then emits the suggestion's id twice. -/
theorem tangentCase_line_ellipse (sketchgui : ViewProviderSketch) (st : CreateState)
    (it : AutoConstraint) (a b c : Vector3d) (r1 r2 : ℚ) (d : Vector3d)
    (h1 : sketchgui.getSketchObject.getGeometry st.geoId1 = some (Geometry.GeomLineSegment a b))
    (h2 : sketchgui.getSketchObject.getGeometry it.GeoId = some (Geometry.GeomEllipse c r1 r2 d)) :
    tangentCase sketchgui st it
      = ({ st with geoId1 := it.GeoId,
                   events := st.events ++ [Event.addTangent it.GeoId it.GeoId] },
          Flow.break_) := by
  simp [tangentCase, h1, h2, isEllipse, isArcOfEllipse, isCircle, isArcOfCircle]

/-- C11 (the code departs from it): on `lineAndEllipse`, the suggestion Tangent
to the ellipse (geometry 1) applied to the line (`geoId1` = 0) emits
Tangent(1, 1): both ids are the ellipse, and the caller's line is absent. -/
theorem createAutoConstraints_tangent_same_id :
    createAutoConstraints lineAndEllipse [⟨ConstraintType.Tangent, 1, PointPos.none⟩] 0
        PointPos.none false
      = [Event.addTangent 1 1] := by
  simp [createAutoConstraints, createLoop, switchCase, tangentCase, lineAndEllipse, viewOf,
    sketchOf, isEllipse, isArcOfEllipse, isCircle, isArcOfCircle]

/-- One PointOnObject suggestion, relative to the values `geoId1` and `posId1`
hold when it is reached: with a point position the command is
PointOnObject(geoId1, posId1, suggestion.GeoId); with `posId1` none the
parameters are swapped and it is PointOnObject(suggestion.GeoId,
suggestion.PosId, geoId1), and the swapped values stay in `geoId1`, `posId1`. -/
theorem switchCase_pointOnObject (sketchgui : ViewProviderSketch) (st : CreateState)
    (it : AutoConstraint) (hit : it.Type_ = ConstraintType.PointOnObject) :
    switchCase sketchgui st it =
      if st.posId1 = PointPos.none then
        (⟨it.GeoId, it.PosId,
          st.events ++ [Event.addPointOnObject it.GeoId it.PosId st.geoId1]⟩, Flow.break_)
      else
        (⟨st.geoId1, st.posId1,
          st.events ++ [Event.addPointOnObject st.geoId1 st.posId1 it.GeoId]⟩, Flow.break_) := by
  unfold switchCase
  rw [hit]
  split_ifs with h <;> simp [h]

/-- A PointOnObject suggestion at the head of the list is applied to the
caller's `geoId1` and `posId1`: its command is the first constraint added. -/
theorem createAutoConstraints_pointOnObject_first (sketchgui : ViewProviderSketch)
    (it : AutoConstraint) (rest : List AutoConstraint) (geoId1 : Int) (posId1 : PointPos)
    (createowncommand : Bool) (hauto : sketchgui.Autoconstraints = true)
    (hit : it.Type_ = ConstraintType.PointOnObject) :
    ∃ tail, createAutoConstraints sketchgui (it :: rest) geoId1 posId1 createowncommand
      = (if createowncommand then [Event.openCommand "Add auto constraints"] else [])
        ++ [if posId1 = PointPos.none then Event.addPointOnObject it.GeoId it.PosId geoId1
            else Event.addPointOnObject geoId1 posId1 it.GeoId]
        ++ tail := by
  simp only [createAutoConstraints, hauto, createLoop, List.length_cons]
  rw [switchCase_pointOnObject sketchgui _ it hit]
  by_cases hp : posId1 = PointPos.none
  · simp only [hp, if_true]
    cases createowncommand
    · obtain ⟨t, ht⟩ := createLoop_events_prefix sketchgui false rest
        ⟨it.GeoId, it.PosId, [] ++ [Event.addPointOnObject it.GeoId it.PosId geoId1]⟩
      exact ⟨t, by simpa using ht⟩
    · obtain ⟨t, ht⟩ := createLoop_events_prefix sketchgui true rest
        ⟨it.GeoId, it.PosId, [Event.openCommand "Add auto constraints"]
          ++ [Event.addPointOnObject it.GeoId it.PosId geoId1] ++ [Event.commitCommand]⟩
      exact ⟨Event.commitCommand :: t, by simpa using ht⟩
  · simp only [hp, if_false]
    cases createowncommand
    · obtain ⟨t, ht⟩ := createLoop_events_prefix sketchgui false rest
        ⟨geoId1, posId1, [] ++ [Event.addPointOnObject geoId1 posId1 it.GeoId]⟩
      exact ⟨t, by simpa using ht⟩
    · obtain ⟨t, ht⟩ := createLoop_events_prefix sketchgui true rest
        ⟨geoId1, posId1, [Event.openCommand "Add auto constraints"]
          ++ [Event.addPointOnObject geoId1 posId1 it.GeoId] ++ [Event.commitCommand]⟩
      exact ⟨Event.commitCommand :: t, by simpa using ht⟩

/-- C12 (the code departs from it): applied to the edge 3 (`posId1` none), the
list [PointOnObject (7, start), PointOnObject (8, mid)] yields
PointOnObject(7, start, 3) and then PointOnObject(7, start, 8): for the second
suggestion the point is not the suggestion's point (8, mid) and the object is
not the caller's edge 3. -/
theorem createAutoConstraints_pointOnObject_second :
    createAutoConstraints (viewOf [] (-1) (-1) (-1))
        [⟨ConstraintType.PointOnObject, 7, PointPos.start⟩,
          ⟨ConstraintType.PointOnObject, 8, PointPos.mid⟩] 3 PointPos.none false
      = [Event.addPointOnObject 7 PointPos.start 3, Event.addPointOnObject 7 PointPos.start 8] := by
  simp [createAutoConstraints, createLoop, switchCase, viewOf]

/-! ## The returned count, and the icons -/

/-- C13: whenever `seekAutoConstraint` returns, the returned value is the number
of entries of the suggestion list, and list and value are the same whatever the
list held before the call (it is cleared first): nothing of the earlier content
is carried over. -/
theorem seekAutoConstraint_count (E : Env) (sketchgui : ViewProviderSketch)
    (prior : List AutoConstraint) (Pos Dir : Vector2d) (type : TargetType)
    (l : List AutoConstraint) (n : Int)
    (h : seekAutoConstraint E sketchgui prior Pos Dir type = some (l, n)) :
    n = (l.length : Int)
    ∧ ∀ other : List AutoConstraint,
        seekAutoConstraint E sketchgui other Pos Dir type = some (l, n) := by
  constructor
  · cases hauto : sketchgui.Autoconstraints with
    | false =>
      simp [seekAutoConstraint, hauto, clear] at h
      obtain ⟨rfl, rfl⟩ := h
      rfl
    | true =>
      cases hpre : getPreselection E sketchgui with
      | none => simp [seekAutoConstraint, hauto, hpre] at h
      | some p =>
        obtain ⟨GeoId, PosId, hitShapeDir⟩ := p
        cases hb : preselectionBlock E sketchgui [] Dir type GeoId PosId hitShapeDir with
        | none => simp [seekAutoConstraint, hauto, hpre, hb, clear] at h
        | some r =>
          cases r with
          | inl l0 =>
            simp only [seekAutoConstraint, hauto, hpre, hb, clear] at h
            simp at h
            obtain ⟨rfl, rfl⟩ := h
            rfl
          | inr l0 =>
            rw [seekAutoConstraint_of_fallthrough E sketchgui prior Pos Dir type GeoId PosId
              hitShapeDir l0 hauto hpre hb] at h
            simp only [Option.some.injEq, Prod.mk.injEq] at h
            obtain ⟨rfl, rfl⟩ := h
            rfl
  · intro other
    rw [← h]
    simp only [seekAutoConstraint, clear]

/-- C13 at an input: the root point preselected for a CURVE target, with two
stale entries in the list before the call. -/
theorem seekAutoConstraint_count_witness :
    (1 : Int) = (([⟨ConstraintType.PointOnObject, -1, PointPos.start⟩] :
      List AutoConstraint).length : Int)
    ∧ seekAutoConstraint refEnv (viewOf [] (-1) (-1) 0)
        [⟨ConstraintType.Tangent, 4, PointPos.none⟩,
          ⟨ConstraintType.PointOnObject, -1, PointPos.start⟩] ⟨0, 0⟩ ⟨0, 0⟩ TargetType.CURVE
      = some ([⟨ConstraintType.PointOnObject, -1, PointPos.start⟩], 1) :=
  ⟨(seekAutoConstraint_count refEnv (viewOf [] (-1) (-1) 0) [] ⟨0, 0⟩ ⟨0, 0⟩ TargetType.CURVE
      _ _ seek_root_point).1,
    (seekAutoConstraint_count refEnv (viewOf [] (-1) (-1) 0) [] ⟨0, 0⟩ ⟨0, 0⟩ TargetType.CURVE
      _ _ seek_root_point).2 _⟩

theorem iconTypeOf_ne_empty (t : ConstraintType) : iconTypeOf t ≠ "" ↔ hasIcon t = true := by
  cases t <;> simp [iconTypeOf, hasIcon]

theorem foldl_pixmaps (pixelRatio : ℚ) (l : List AutoConstraint) (acc : List QPixmap) :
    l.foldl
      (fun pixmaps it =>
        let iconType := iconTypeOf it.Type_
        if iconType ≠ "" then
          let iconWidth := toInt (16 * pixelRatio)
          pixmaps ++ [⟨iconType, iconWidth⟩]
        else pixmaps) acc
      = acc ++ (l.filter (fun c => hasIcon c.Type_)).map
          (fun c => (⟨iconTypeOf c.Type_, toInt (16 * pixelRatio)⟩ : QPixmap)) := by
  induction l generalizing acc with
  | nil => simp
  | cons it rest ih =>
    simp only [List.foldl_cons]
    rw [ih]
    by_cases hi : hasIcon it.Type_ = true
    · have := (iconTypeOf_ne_empty it.Type_).mpr hi
      simp [hi, this]
    · have : ¬ iconTypeOf it.Type_ ≠ "" := fun hne => hi ((iconTypeOf_ne_empty it.Type_).mp hne)
      simp [hi, this]

/-- Every entry `seekAutoConstraint` returns has a type with an icon. -/
theorem seekAutoConstraint_hasIcon (E : Env) (sketchgui : ViewProviderSketch)
    (prior : List AutoConstraint) (Pos Dir : Vector2d) (type : TargetType)
    (l : List AutoConstraint) (n : Int)
    (h : seekAutoConstraint E sketchgui prior Pos Dir type = some (l, n)) :
    ∀ c ∈ l, hasIcon c.Type_ = true := by
  cases hauto : sketchgui.Autoconstraints with
  | false =>
    simp [seekAutoConstraint, hauto, clear] at h
    obtain ⟨rfl, _⟩ := h
    simp
  | true =>
    cases hpre : getPreselection E sketchgui with
    | none => simp [seekAutoConstraint, hauto, hpre] at h
    | some p =>
      obtain ⟨GeoId, PosId, hitShapeDir⟩ := p
      cases hb : preselectionBlock E sketchgui [] Dir type GeoId PosId hitShapeDir with
      | none => simp [seekAutoConstraint, hauto, hpre, hb, clear] at h
      | some r =>
        have hr := preselectionBlock_types E sketchgui Dir type GeoId PosId hitShapeDir r hb
        cases r with
        | inl l0 =>
          simp only [seekAutoConstraint, hauto, hpre, hb, clear] at h
          simp at h
          obtain ⟨rfl, _⟩ := h
          intro c hc
          rcases hr c (by simpa using hc) with h1 | h1 | h1 <;> simp [h1, hasIcon]
        | inr l0 =>
          rw [seekAutoConstraint_of_fallthrough E sketchgui prior Pos Dir type GeoId PosId
            hitShapeDir l0 hauto hpre hb] at h
          simp at h
          obtain ⟨rfl, _⟩ := h
          intro c hc
          rcases List.mem_append.mp hc with hc | hc
          · rcases hr c (by simpa using hc) with h1 | h1 | h1 <;> simp [h1, hasIcon]
          · rcases directionSuggestions_types E sketchgui Pos Dir type c hc
              with h1 | h1 | h1 <;> simp [h1, hasIcon]

/-- C17: `suggestedConstraintsPixmaps` returns, in the order of the suggestions,
one icon for each suggestion of type Horizontal, Vertical, Coincident,
PointOnObject or Tangent and none for the others; so there are never more icons
than suggestions, and exactly as many for every list `seekAutoConstraint`
returns. -/
theorem suggestedConstraintsPixmaps_icons (pixelRatio : ℚ)
    (suggestedConstraints : List AutoConstraint) :
    suggestedConstraintsPixmaps pixelRatio suggestedConstraints
      = (suggestedConstraints.filter (fun c => hasIcon c.Type_)).map
          (fun c => (⟨iconTypeOf c.Type_, toInt (16 * pixelRatio)⟩ : QPixmap))
    ∧ (suggestedConstraintsPixmaps pixelRatio suggestedConstraints).length
        ≤ suggestedConstraints.length
    ∧ ∀ (E : Env) (sketchgui : ViewProviderSketch) (prior : List AutoConstraint)
        (Pos Dir : Vector2d) (type : TargetType) (n : Int),
        seekAutoConstraint E sketchgui prior Pos Dir type = some (suggestedConstraints, n) →
        (suggestedConstraintsPixmaps pixelRatio suggestedConstraints).length
          = suggestedConstraints.length := by
  have heq : suggestedConstraintsPixmaps pixelRatio suggestedConstraints
      = (suggestedConstraints.filter (fun c => hasIcon c.Type_)).map
          (fun c => (⟨iconTypeOf c.Type_, toInt (16 * pixelRatio)⟩ : QPixmap)) := by
    unfold suggestedConstraintsPixmaps
    rw [foldl_pixmaps]
    simp
  refine ⟨heq, ?_, ?_⟩
  · rw [heq, List.length_map]
    exact List.length_filter_le _ _
  · intro E sketchgui prior Pos Dir type n h
    have hall := seekAutoConstraint_hasIcon E sketchgui prior Pos Dir type _ n h
    rw [heq, List.length_map, List.filter_eq_self.mpr]
    intro c hc
    exact hall c hc

/-- C17 at an input: the list returned for the three circles, Horizontal then
Tangent, gets the two icons in that order, 16 pixels wide at pixel ratio 1. -/
theorem suggestedConstraintsPixmaps_icons_witness :
    suggestedConstraintsPixmaps 1
        [⟨ConstraintType.Horizontal, -2000, PointPos.none⟩,
          ⟨ConstraintType.Tangent, 1, PointPos.none⟩]
      = [⟨"Constraint_Horizontal", 16⟩, ⟨"Constraint_Tangent", 16⟩]
    ∧ (suggestedConstraintsPixmaps 1
        [⟨ConstraintType.Horizontal, -2000, PointPos.none⟩,
          ⟨ConstraintType.Tangent, 1, PointPos.none⟩]).length = 2 := by
  have t := suggestedConstraintsPixmaps_icons 1
    [⟨ConstraintType.Horizontal, -2000, PointPos.none⟩,
      ⟨ConstraintType.Tangent, 1, PointPos.none⟩]
  refine ⟨?_, t.2.2 refEnv threeCircles [] ⟨2, 0⟩ ⟨1, 0⟩ TargetType.VERTEX 2 seek_three_circles⟩
  rw [t.1]
  simp [hasIcon, iconTypeOf, toInt]

end SketcherGui

namespace Gui

/-! ## Properties of the navigation cube -/

/-- `pickFace` reads only the size, the position and the framebuffer pointer. -/
theorem pickFace_after_setHilite (env : NaviEnv) (nc : NaviCubeImplementation) (x y : Int) :
    pickFace env { (setHilite nc 0).1 with m_MouseDown := false } x y = pickFace env nc x y := by
  unfold setHilite pickFace
  split_ifs <;> rfl

/-- The members after `mouseReleased`: the highlight is 0 and the mouse-down
flag is false, everything else is as before. -/
theorem setHilite_zero_state (nc : NaviCubeImplementation) :
    ({ (setHilite nc 0).1 with m_MouseDown := false } : NaviCubeImplementation)
      = { nc with m_HiliteId := 0, m_MouseDown := false } := by
  unfold setHilite
  split_ifs with h
  · rfl
  · have h0 : nc.m_HiliteId = 0 := by
      by_contra hne
      exact h (fun e => hne e.symm)
    cases nc
    simp at h0
    simp [h0]

theorem setHilite_m_Dragging (nc : NaviCubeImplementation) (hilite : Int) :
    (setHilite nc hilite).1.m_Dragging = nc.m_Dragging := by
  unfold setHilite
  split_ifs <;> rfl

/-- `mouseReleased` while no drag is in progress, by the case of the `switch`. -/
theorem mouseReleased_not_dragging (env : NaviEnv) (nc : NaviCubeImplementation) (x y : Int)
    (hdrag : nc.m_Dragging = false) :
    mouseReleased env nc x y =
      match switchPick (pickFace env nc x y) 45 tilt (360 / clamp env.NaviStepByTurn 4 36) with
      | Option.none =>
        (false, { nc with m_HiliteId := 0, m_MouseDown := false },
          (setHilite nc 0).2 ++ [NaviEvent.pickFace x y])
      | some call =>
        (true, { nc with m_HiliteId := 0, m_MouseDown := false },
          (setHilite nc 0).2 ++ [NaviEvent.pickFace x y] ++ [call]) := by
  obtain ⟨sz, px, py, hi, md, dr, mi, fb⟩ := nc
  simp only at hdrag
  subst hdrag
  by_cases h : (0 : Int) = hi
  · subst h
    simp only [mouseReleased, setHilite, pickFace, ne_eq, not_true_eq_false, if_false,
      Bool.not_false, if_true, List.nil_append]
  · simp only [mouseReleased, setHilite, pickFace, ne_eq, h, not_false_eq_true, if_true,
      Bool.not_false]

/-- `mouseReleased` while a drag is in progress. -/
theorem mouseReleased_dragging (env : NaviEnv) (nc : NaviCubeImplementation) (x y : Int)
    (hdrag : nc.m_Dragging = true) :
    mouseReleased env nc x y =
      (true, { nc with m_HiliteId := 0, m_MouseDown := false }, (setHilite nc 0).2) := by
  obtain ⟨sz, px, py, hi, md, dr, mi, fb⟩ := nc
  simp only at hdrag
  subst hdrag
  by_cases h : (0 : Int) = hi
  · subst h
    simp [mouseReleased, setHilite]
  · simp [mouseReleased, setHilite, h]

/-- The `switch` has a case for exactly the ids the specification lists. -/
theorem switchPick_isSome (pick : Int) (rot tilt rotStepAngle : ℚ) :
    (switchPick pick rot tilt rotStepAngle).isSome = true ↔ pick ∈ actingIds := by
  constructor
  · intro h
    by_contra hn
    simp only [actingIds, List.mem_cons, List.mem_singleton, List.not_mem_nil, or_false,
      not_or] at hn
    obtain ⟨h1, h2, h3, h4, h5, h6, h7, h8, h9, h10, h11, h12, h13, h14, h15, h16, h17, h18,
      h19, h20, h21⟩ := hn
    rw [switchPick, if_neg h1, if_neg h2, if_neg h5, if_neg h6, if_neg h3, if_neg h4,
      if_neg h9, if_neg h8, if_neg h7, if_neg h10, if_neg h11, if_neg h12, if_neg h13,
      if_neg h14, if_neg h20, if_neg h19, if_neg h18, if_neg h17, if_neg h15, if_neg h16,
      if_neg h21] at h
    cases h
  · intro h
    simp only [actingIds, List.mem_cons, List.mem_singleton, List.not_mem_nil, or_false] at h
    rcases h with h | h | h | h | h | h | h | h | h | h | h | h | h | h | h | h | h | h | h
      | h | h <;> subst h <;> rfl

/-- C14: releasing the mouse on a main face while no drag is in progress
returns true and requests the orientation `rx * rz` with the angles (rotZ, rotX)
the specification lists for that face (`mainFaceViews`): FRONT (0, 90), REAR
(180, 90), LEFT (270, 90), RIGHT (90, 90), TOP (0, 0), BOTTOM (0, 180). Opposite
faces differ by 180 degrees in one angle and agree in the other, and the six
pairs of angles are pairwise distinct. -/
theorem mouseReleased_main_face (env : NaviEnv) (nc : NaviCubeImplementation) (x y : Int)
    (id : Int) (rotZ rotX : ℚ)
    (hdrag : nc.m_Dragging = false)
    (hface : (id, rotZ, rotX) ∈ mainFaceViews)
    (hpick : pickFace env nc x y = id) :
    mouseReleased env nc x y =
      (true, { nc with m_HiliteId := 0, m_MouseDown := false },
        (setHilite nc 0).2 ++ [NaviEvent.pickFace x y] ++
          [NaviEvent.setCameraOrientation
            (SbRotation.mul (SbRotation.setValue ⟨1, 0, 0⟩ (rotX * SketcherGui.M_PI / 180))
              (SbRotation.setValue ⟨0, 0, 1⟩ (rotZ * SketcherGui.M_PI / 180)))])
    ∧ (∀ rot tilt rotStepAngle : ℚ,
        (∃ z x, switchPick TEX_FRONT rot tilt rotStepAngle = some (setView z x)
          ∧ switchPick TEX_REAR rot tilt rotStepAngle = some (setView (z + 180) x))
        ∧ (∃ z x, switchPick TEX_RIGHT rot tilt rotStepAngle = some (setView z x)
          ∧ switchPick TEX_LEFT rot tilt rotStepAngle = some (setView (z + 180) x))
        ∧ (∃ z x, switchPick TEX_TOP rot tilt rotStepAngle = some (setView z x)
          ∧ switchPick TEX_BOTTOM rot tilt rotStepAngle = some (setView z (x + 180))))
    ∧ (mainFaceViews.map (fun v => (v.2.1, v.2.2))).Nodup := by
  refine ⟨?_, ?_, ?_⟩
  · have hs : switchPick id 45 tilt (360 / clamp env.NaviStepByTurn 4 36)
        = some (setView rotZ rotX) := by
      simp only [mainFaceViews, List.mem_cons, List.mem_singleton, List.not_mem_nil, or_false,
        Prod.mk.injEq] at hface
      rcases hface with ⟨h1, h2, h3⟩ | ⟨h1, h2, h3⟩ | ⟨h1, h2, h3⟩ | ⟨h1, h2, h3⟩
        | ⟨h1, h2, h3⟩ | ⟨h1, h2, h3⟩ <;> subst h1 h2 h3 <;> rfl
    rw [mouseReleased_not_dragging env nc x y hdrag, hpick, hs]
    rfl
  · intro rot tilt rotStepAngle
    refine ⟨⟨0, 90, rfl, ?_⟩, ⟨90, 90, rfl, ?_⟩, ⟨0, 0, rfl, ?_⟩⟩
    · have : switchPick TEX_REAR rot tilt rotStepAngle = some (setView 180 90) := rfl
      rw [this]; norm_num
    · have : switchPick TEX_LEFT rot tilt rotStepAngle = some (setView 270 90) := rfl
      rw [this]; norm_num
    · have : switchPick TEX_BOTTOM rot tilt rotStepAngle = some (setView 0 180) := rfl
      rw [this]; norm_num
  · simp only [mainFaceViews, List.map, List.nodup_cons, List.mem_cons, List.mem_singleton,
      Prod.mk.injEq, List.not_mem_nil, List.nodup_nil]
    norm_num

/-- C14 at an input: the picking framebuffer shows FRONT (id 1) under the
cursor of `cubeAt100`; the release returns true, clears highlight and
mouse-down flag, and requests rotX = 90, rotZ = 0. -/
theorem mouseReleased_main_face_witness :
    mouseReleased (showing 1) cubeAt100 100 100 =
      (true, { cubeAt100 with m_HiliteId := 0, m_MouseDown := false },
        (setHilite cubeAt100 0).2 ++ [NaviEvent.pickFace 100 100] ++
          [NaviEvent.setCameraOrientation
            (SbRotation.mul (SbRotation.setValue ⟨1, 0, 0⟩ (90 * SketcherGui.M_PI / 180))
              (SbRotation.setValue ⟨0, 0, 1⟩ (0 * SketcherGui.M_PI / 180)))]) :=
  (mouseReleased_main_face (showing 1) cubeAt100 100 100 TEX_FRONT 0 90 rfl
    (by simp [mainFaceViews]) (by simp [pickFace, showing, cubeAt100, TEX_FRONT])).1

theorem setHilite_events (nc : NaviCubeImplementation) (hilite : Int) :
    ∀ e ∈ (setHilite nc hilite).2, e = NaviEvent.scheduleRedraw := by
  unfold setHilite
  split_ifs <;> simp

/-- C15: `mouseReleased` always leaves the highlight at 0 and the mouse-down
flag false. While a drag is in progress it returns true and makes no picking
render and no call to the camera or the menu. Otherwise it returns true exactly
when the picked id is one of the 6 main faces, the 8 corners, the 6 arrow
buttons or `TEX_VIEW_MENU_FACE`; for every other id it returns false and makes
no call to the camera or the menu. The ids 0, `TEX_BACK_FACE`,
`TEX_FRONT_FACE`, `TEX_CORNER_FACE` and `TEX_VIEW_MENU_ICON` are among the
others. -/
theorem mouseReleased_result (env : NaviEnv) (nc : NaviCubeImplementation) (x y : Int) :
    (mouseReleased env nc x y).2.1.m_HiliteId = 0
    ∧ (mouseReleased env nc x y).2.1.m_MouseDown = false
    ∧ (nc.m_Dragging = true →
        (mouseReleased env nc x y).1 = true
        ∧ ∀ e ∈ (mouseReleased env nc x y).2.2,
            isPick e = false ∧ touchesCameraOrMenu e = false)
    ∧ (nc.m_Dragging = false →
        ((mouseReleased env nc x y).1 = true ↔ pickFace env nc x y ∈ actingIds)
        ∧ (pickFace env nc x y ∉ actingIds →
            (mouseReleased env nc x y).1 = false
            ∧ ∀ e ∈ (mouseReleased env nc x y).2.2, touchesCameraOrMenu e = false))
    ∧ (0 ∉ actingIds ∧ TEX_BACK_FACE ∉ actingIds ∧ TEX_FRONT_FACE ∉ actingIds
        ∧ TEX_CORNER_FACE ∉ actingIds ∧ TEX_VIEW_MENU_ICON ∉ actingIds) := by
  have hstate : (mouseReleased env nc x y).2.1
      = { nc with m_HiliteId := 0, m_MouseDown := false } := by
    rcases Bool.eq_false_or_eq_true nc.m_Dragging with hd | hd
    · rw [mouseReleased_dragging env nc x y hd]
    · rw [mouseReleased_not_dragging env nc x y hd]
      split <;> rfl
  refine ⟨by rw [hstate], by rw [hstate], ?_, ?_, ?_⟩
  · intro hd
    rw [mouseReleased_dragging env nc x y hd]
    refine ⟨rfl, ?_⟩
    intro e he
    rw [setHilite_events nc 0 e he]
    exact ⟨rfl, rfl⟩
  · intro hd
    have hsome := switchPick_isSome (pickFace env nc x y) 45 tilt
      (360 / clamp env.NaviStepByTurn 4 36)
    rw [mouseReleased_not_dragging env nc x y hd]
    cases hs : switchPick (pickFace env nc x y) 45 tilt (360 / clamp env.NaviStepByTurn 4 36) with
    | none =>
      rw [hs] at hsome
      simp only [Option.isSome_none, Bool.false_eq_true, false_iff] at hsome
      refine ⟨by simp [hsome], ?_⟩
      intro _
      refine ⟨rfl, ?_⟩
      intro e he
      simp only [List.mem_append, List.mem_singleton] at he
      rcases he with he | he
      · rw [setHilite_events nc 0 e he]; rfl
      · rw [he]; rfl
    | some call =>
      rw [hs] at hsome
      simp only [Option.isSome_some, true_iff] at hsome
      refine ⟨by simp [hsome], ?_⟩
      intro hn
      exact absurd hsome hn
  · simp [actingIds, TEX_FRONT, TEX_REAR, TEX_TOP, TEX_BOTTOM, TEX_LEFT, TEX_RIGHT,
      TEX_BOTTOM_RIGHT_REAR, TEX_BOTTOM_FRONT_RIGHT, TEX_BOTTOM_LEFT_FRONT,
      TEX_BOTTOM_REAR_LEFT, TEX_TOP_RIGHT_FRONT, TEX_TOP_FRONT_LEFT, TEX_TOP_LEFT_REAR,
      TEX_TOP_REAR_RIGHT, TEX_ARROW_NORTH, TEX_ARROW_SOUTH, TEX_ARROW_EAST, TEX_ARROW_WEST,
      TEX_ARROW_RIGHT, TEX_ARROW_LEFT, TEX_VIEW_MENU_FACE, TEX_BACK_FACE, TEX_FRONT_FACE,
      TEX_CORNER_FACE, TEX_VIEW_MENU_ICON]

/-- C15 at two inputs: with the framebuffer showing `TEX_CORNER_FACE` (id 9)
the release on `cubeAt100` returns false and makes no call to the camera or the
menu; with a drag in progress it returns true without picking. -/
theorem mouseReleased_result_witness :
    ((mouseReleased (showing 9) cubeAt100 100 100).1 = false
      ∧ ∀ e ∈ (mouseReleased (showing 9) cubeAt100 100 100).2.2,
          touchesCameraOrMenu e = false)
    ∧ ((mouseReleased (showing 1) { cubeAt100 with m_Dragging := true } 100 100).1 = true
      ∧ ∀ e ∈ (mouseReleased (showing 1) { cubeAt100 with m_Dragging := true } 100 100).2.2,
          isPick e = false ∧ touchesCameraOrMenu e = false) :=
  ⟨((mouseReleased_result (showing 9) cubeAt100 100 100).2.2.2.1 rfl).2
      (by simp [pickFace, showing, cubeAt100, actingIds, TEX_FRONT, TEX_REAR, TEX_TOP,
        TEX_BOTTOM, TEX_LEFT, TEX_RIGHT, TEX_BOTTOM_RIGHT_REAR, TEX_BOTTOM_FRONT_RIGHT,
        TEX_BOTTOM_LEFT_FRONT, TEX_BOTTOM_REAR_LEFT, TEX_TOP_RIGHT_FRONT, TEX_TOP_FRONT_LEFT,
        TEX_TOP_LEFT_REAR, TEX_TOP_REAR_RIGHT, TEX_ARROW_NORTH, TEX_ARROW_SOUTH,
        TEX_ARROW_EAST, TEX_ARROW_WEST, TEX_ARROW_RIGHT, TEX_ARROW_LEFT, TEX_VIEW_MENU_FACE]),
    (mouseReleased_result (showing 1) { cubeAt100 with m_Dragging := true } 100 100).2.2.1 rfl⟩

/-- C16: `pickFace` returns 0 when there is no picking framebuffer and when the
pixel read back has an alpha other than 255, and the pixel's red byte
otherwise; every id drawn in pick mode (the pick ids `initNaviCube` gives the
faces, the six buttons of `m_Buttons` and `TEX_VIEW_MENU_FACE`) lies between 1
and 25, so it is not 0 and is written unchanged into the colour byte. -/
theorem pickFace_ids (env : NaviEnv) (nc : NaviCubeImplementation) (x y : Int) :
    (nc.m_PickingFramebuffer = false → pickFace env nc x y = 0)
    ∧ (nc.m_PickingFramebuffer = true →
        ((env.glReadPixels (readCoord x nc.m_CubeWidgetPosX nc.m_CubeWidgetSize)
            (readCoord y nc.m_CubeWidgetPosY nc.m_CubeWidgetSize)).a ≠ 255 →
          pickFace env nc x y = 0)
        ∧ ((env.glReadPixels (readCoord x nc.m_CubeWidgetPosX nc.m_CubeWidgetSize)
            (readCoord y nc.m_CubeWidgetPosY nc.m_CubeWidgetSize)).a = 255 →
          pickFace env nc x y
            = (env.glReadPixels (readCoord x nc.m_CubeWidgetPosX nc.m_CubeWidgetSize)
                (readCoord y nc.m_CubeWidgetPosY nc.m_CubeWidgetSize)).r))
    ∧ ∀ id ∈ pickModeIds initFaces.m_Faces m_Buttons,
        1 ≤ id ∧ id ≤ 25 ∧ id ≠ 0 ∧ toGLubyte id = id := by
  refine ⟨?_, ?_, ?_⟩
  · intro h
    simp [pickFace, h]
  · intro h
    constructor
    · intro ha
      simp [pickFace, h, ha]
    · intro ha
      simp [pickFace, h, ha]
  · decide

/-- C16 at two inputs: `cubeAt100` with the framebuffer showing id 1 picks 1,
and the same cube without a picking framebuffer picks 0. -/
theorem pickFace_ids_witness :
    pickFace (showing 1) cubeAt100 100 100 = 1
    ∧ pickFace (showing 1) { cubeAt100 with m_PickingFramebuffer := false } 100 100 = 0 :=
  ⟨((pickFace_ids (showing 1) cubeAt100 100 100).2.1 rfl).2 rfl,
    (pickFace_ids (showing 1) { cubeAt100 with m_PickingFramebuffer := false } 100 100).1 rfl⟩

/-- C18: for a cube of side `size > 0` whose picking framebuffer has the side
`2 * size` (an `int`), and a cursor inside the square of side `size` whose
lower-left corner is `(PosX - size/2, PosY - size/2)`, both coordinates that
`pickFace` reads lie between 0 and `2 * size - 2`, inside the framebuffer; no
step of the computation overflows. -/
theorem pickFace_reads_inside (nc : NaviCubeImplementation) (x y : Int)
    (hsize : 0 < nc.m_CubeWidgetSize)
    (hfb : 2 * nc.m_CubeWidgetSize ≤ 2147483647)
    (hx : viewportCorner nc.m_CubeWidgetPosX nc.m_CubeWidgetSize ≤ x
      ∧ x < viewportCorner nc.m_CubeWidgetPosX nc.m_CubeWidgetSize + nc.m_CubeWidgetSize)
    (hy : viewportCorner nc.m_CubeWidgetPosY nc.m_CubeWidgetSize ≤ y
      ∧ y < viewportCorner nc.m_CubeWidgetPosY nc.m_CubeWidgetSize + nc.m_CubeWidgetSize) :
    (0 ≤ readCoord x nc.m_CubeWidgetPosX nc.m_CubeWidgetSize
      ∧ readCoord x nc.m_CubeWidgetPosX nc.m_CubeWidgetSize ≤ 2 * nc.m_CubeWidgetSize - 2
      ∧ readCoord x nc.m_CubeWidgetPosX nc.m_CubeWidgetSize
          < pickingFramebufferSize nc.m_CubeWidgetSize
      ∧ readCoord x nc.m_CubeWidgetPosX nc.m_CubeWidgetSize
          = 2 * (x - viewportCorner nc.m_CubeWidgetPosX nc.m_CubeWidgetSize))
    ∧ (0 ≤ readCoord y nc.m_CubeWidgetPosY nc.m_CubeWidgetSize
      ∧ readCoord y nc.m_CubeWidgetPosY nc.m_CubeWidgetSize ≤ 2 * nc.m_CubeWidgetSize - 2
      ∧ readCoord y nc.m_CubeWidgetPosY nc.m_CubeWidgetSize
          < pickingFramebufferSize nc.m_CubeWidgetSize
      ∧ readCoord y nc.m_CubeWidgetPosY nc.m_CubeWidgetSize
          = 2 * (y - viewportCorner nc.m_CubeWidgetPosY nc.m_CubeWidgetSize)) := by
  obtain ⟨hx1, hx2⟩ := hx
  obtain ⟨hy1, hy2⟩ := hy
  unfold readCoord pickingFramebufferSize
  generalize viewportCorner nc.m_CubeWidgetPosX nc.m_CubeWidgetSize = cx at hx1 hx2 ⊢
  generalize viewportCorner nc.m_CubeWidgetPosY nc.m_CubeWidgetSize = cy at hy1 hy2 ⊢
  generalize nc.m_CubeWidgetSize = size at hsize hfb hx2 hy2 ⊢
  unfold wrap32
  refine ⟨⟨?_, ?_, ?_, ?_⟩, ⟨?_, ?_, ?_, ?_⟩⟩ <;> omega

/-- C18 at an input: on `cubeAt100` (side 132, centre (100, 100)) the square
starts at 34; the cursor at its last column and first row, (165, 34), reads the
framebuffer at (262, 0), inside its side of 264. -/
theorem pickFace_reads_inside_witness :
    (0 ≤ readCoord 165 cubeAt100.m_CubeWidgetPosX cubeAt100.m_CubeWidgetSize
      ∧ readCoord 165 cubeAt100.m_CubeWidgetPosX cubeAt100.m_CubeWidgetSize
          ≤ 2 * cubeAt100.m_CubeWidgetSize - 2
      ∧ readCoord 165 cubeAt100.m_CubeWidgetPosX cubeAt100.m_CubeWidgetSize
          < pickingFramebufferSize cubeAt100.m_CubeWidgetSize
      ∧ readCoord 165 cubeAt100.m_CubeWidgetPosX cubeAt100.m_CubeWidgetSize
          = 2 * (165 - viewportCorner cubeAt100.m_CubeWidgetPosX cubeAt100.m_CubeWidgetSize))
    ∧ (0 ≤ readCoord 34 cubeAt100.m_CubeWidgetPosY cubeAt100.m_CubeWidgetSize
      ∧ readCoord 34 cubeAt100.m_CubeWidgetPosY cubeAt100.m_CubeWidgetSize
          ≤ 2 * cubeAt100.m_CubeWidgetSize - 2
      ∧ readCoord 34 cubeAt100.m_CubeWidgetPosY cubeAt100.m_CubeWidgetSize
          < pickingFramebufferSize cubeAt100.m_CubeWidgetSize
      ∧ readCoord 34 cubeAt100.m_CubeWidgetPosY cubeAt100.m_CubeWidgetSize
          = 2 * (34 - viewportCorner cubeAt100.m_CubeWidgetPosY cubeAt100.m_CubeWidgetSize)) :=
  pickFace_reads_inside cubeAt100 165 34 (by decide) (by decide) (by decide) (by decide)

/-- The run behind the C18 example: the read position is (262, 0) and the
framebuffer side is 264. -/
theorem readCoord_cubeAt100 :
    readCoord 165 cubeAt100.m_CubeWidgetPosX cubeAt100.m_CubeWidgetSize = 262
    ∧ readCoord 34 cubeAt100.m_CubeWidgetPosY cubeAt100.m_CubeWidgetSize = 0
    ∧ pickingFramebufferSize cubeAt100.m_CubeWidgetSize = 264 := by
  decide

/-- `setView` determines its two angles. -/
theorem setView_inj (z x z' x' : ℚ) (h : setView z x = setView z' x') : z = z' ∧ x = x' := by
  have hpi : SketcherGui.M_PI ≠ 0 := by norm_num [SketcherGui.M_PI]
  simp only [setView, NaviEvent.setCameraOrientation.injEq, SbRotation.mul.injEq,
    SbRotation.setValue.injEq, true_and] at h
  obtain ⟨hx, hz⟩ := h
  constructor
  · field_simp at hz
    exact hz.resolve_right hpi
  · field_simp at hx
    exact hx.resolve_right hpi

/-- C19: releasing the mouse on a corner while no drag is in progress requests
rotX = 90 + tilt for the four bottom corners and 90 - tilt for the four top
corners, with `tilt` = 90 - 54.7356, and a rotZ congruent modulo 360 to the
value the specification lists for the corner (`cornerViews`): 45 for the
FRONT/RIGHT corners, 135 for RIGHT/REAR, 225 for REAR/LEFT and 315 for
LEFT/FRONT. These values are the midpoints of the rotZ requested for the two
adjacent side faces (FRONT taken as 360 next to LEFT), and a top corner and the
bottom corner below it request the same rotZ modulo 360. -/
theorem mouseReleased_corner (env : NaviEnv) (nc : NaviCubeImplementation) (x y : Int)
    (id : Int) (rotZ rotX : ℚ)
    (hdrag : nc.m_Dragging = false)
    (hcorner : (id, rotZ, rotX) ∈ cornerViews)
    (hpick : pickFace env nc x y = id) :
    (∃ (z : ℚ) (k : Int), z = rotZ + 360 * k
      ∧ mouseReleased env nc x y =
        (true, { nc with m_HiliteId := 0, m_MouseDown := false },
          (setHilite nc 0).2 ++ [NaviEvent.pickFace x y] ++ [setView z rotX]))
    ∧ tilt = 90 - 54.7356
    ∧ (∀ (s zF zR zB zL xF xR xB xL : ℚ),
        switchPick TEX_FRONT 45 tilt s = some (setView zF xF) →
        switchPick TEX_RIGHT 45 tilt s = some (setView zR xR) →
        switchPick TEX_REAR 45 tilt s = some (setView zB xB) →
        switchPick TEX_LEFT 45 tilt s = some (setView zL xL) →
        (45 : ℚ) = (zF + zR) / 2 ∧ (135 : ℚ) = (zR + zB) / 2 ∧ (225 : ℚ) = (zB + zL) / 2
          ∧ (315 : ℚ) = (zL + (zF + 360)) / 2)
    ∧ (∀ s : ℚ,
        (∃ (z1 z2 : ℚ) (k : Int), z1 = z2 + 360 * k
          ∧ switchPick TEX_TOP_RIGHT_FRONT 45 tilt s = some (setView z1 (90 - tilt))
          ∧ switchPick TEX_BOTTOM_FRONT_RIGHT 45 tilt s = some (setView z2 (90 + tilt)))
        ∧ (∃ (z1 z2 : ℚ) (k : Int), z1 = z2 + 360 * k
          ∧ switchPick TEX_TOP_REAR_RIGHT 45 tilt s = some (setView z1 (90 - tilt))
          ∧ switchPick TEX_BOTTOM_RIGHT_REAR 45 tilt s = some (setView z2 (90 + tilt)))
        ∧ (∃ (z1 z2 : ℚ) (k : Int), z1 = z2 + 360 * k
          ∧ switchPick TEX_TOP_LEFT_REAR 45 tilt s = some (setView z1 (90 - tilt))
          ∧ switchPick TEX_BOTTOM_REAR_LEFT 45 tilt s = some (setView z2 (90 + tilt)))
        ∧ (∃ (z1 z2 : ℚ) (k : Int), z1 = z2 + 360 * k
          ∧ switchPick TEX_TOP_FRONT_LEFT 45 tilt s = some (setView z1 (90 - tilt))
          ∧ switchPick TEX_BOTTOM_LEFT_FRONT 45 tilt s = some (setView z2 (90 + tilt)))) := by
  refine ⟨?_, rfl, ?_, ?_⟩
  · have hs : ∃ (z : ℚ) (k : Int), z = rotZ + 360 * k
        ∧ switchPick id 45 tilt (360 / clamp env.NaviStepByTurn 4 36)
          = some (setView z rotX) := by
      simp only [cornerViews, List.mem_cons, List.mem_singleton, List.not_mem_nil, or_false,
        Prod.mk.injEq] at hcorner
      rcases hcorner with ⟨h1, h2, h3⟩ | ⟨h1, h2, h3⟩ | ⟨h1, h2, h3⟩ | ⟨h1, h2, h3⟩
        | ⟨h1, h2, h3⟩ | ⟨h1, h2, h3⟩ | ⟨h1, h2, h3⟩ | ⟨h1, h2, h3⟩ <;> subst h1 h2 h3
      · exact ⟨90 + 45 - 90, 0, by norm_num, rfl⟩
      · exact ⟨180 + 45 - 90, 0, by norm_num, rfl⟩
      · exact ⟨270 + 45 - 90, 0, by norm_num, rfl⟩
      · exact ⟨45 - 90, -1, by norm_num, rfl⟩
      · exact ⟨45, 0, by norm_num, rfl⟩
      · exact ⟨45 - 270, -1, by norm_num, rfl⟩
      · exact ⟨45 - 180, -1, by norm_num, rfl⟩
      · exact ⟨45 - 90, -1, by norm_num, rfl⟩
    obtain ⟨z, k, hz, hsw⟩ := hs
    refine ⟨z, k, hz, ?_⟩
    rw [mouseReleased_not_dragging env nc x y hdrag, hpick, hsw]
  · intro s zF zR zB zL xF xR xB xL hF hR hB hL
    have eF : switchPick TEX_FRONT 45 tilt s = some (setView 0 90) := rfl
    have eR : switchPick TEX_RIGHT 45 tilt s = some (setView 90 90) := rfl
    have eB : switchPick TEX_REAR 45 tilt s = some (setView 180 90) := rfl
    have eL : switchPick TEX_LEFT 45 tilt s = some (setView 270 90) := rfl
    rw [eF] at hF
    rw [eR] at hR
    rw [eB] at hB
    rw [eL] at hL
    have h1 := (setView_inj _ _ _ _ (Option.some.inj hF)).1
    have h2 := (setView_inj _ _ _ _ (Option.some.inj hR)).1
    have h3 := (setView_inj _ _ _ _ (Option.some.inj hB)).1
    have h4 := (setView_inj _ _ _ _ (Option.some.inj hL)).1
    subst h1 h2 h3 h4
    norm_num
  · intro s
    exact ⟨⟨45, 90 + 45 - 90, 0, by norm_num, rfl, rfl⟩,
      ⟨45 - 270, 180 + 45 - 90, -1, by norm_num, rfl, rfl⟩,
      ⟨45 - 180, 270 + 45 - 90, -1, by norm_num, rfl, rfl⟩,
      ⟨45 - 90, 45 - 90, 0, by norm_num, rfl, rfl⟩⟩

/-- C19 at an input: the picking framebuffer shows `TEX_TOP_FRONT_LEFT`
(id 15) under the cursor of `cubeAt100`; the release requests
rotZ = 45 - 90 = 315 - 360 and rotX = 90 - tilt. -/
theorem mouseReleased_corner_witness :
    ∃ (z : ℚ) (k : Int), z = 315 + 360 * k
      ∧ mouseReleased (showing 15) cubeAt100 100 100 =
        (true, { cubeAt100 with m_HiliteId := 0, m_MouseDown := false },
          (setHilite cubeAt100 0).2 ++ [NaviEvent.pickFace 100 100]
            ++ [setView z (90 - tilt)]) :=
  (mouseReleased_corner (showing 15) cubeAt100 100 100 TEX_TOP_FRONT_LEFT 315 (90 - tilt) rfl
    (by simp [cornerViews]) (by simp [pickFace, showing, cubeAt100, TEX_TOP_FRONT_LEFT])).1

end Gui
